import Mathlib

/-!
Shallow embedding of the fireguard/oauth2-server core (TypeScript) in Lean 4.

The embedding follows the TypeScript sources file by file:
  src/grant-types/AbstractGrantType.ts, AuthorizationCodeGrantType.ts (which also
  contains RefreshTokenGrantType), ClientCredentialsGrantType.ts, PasswordGrantType,
  src/handlers/TokenHandler.ts, src/handlers/AuthorizeHandler.ts,
  src/models/TokenModel.ts, src/response-types/CodeResponseType.ts,
  src/exceptions/ *.ts, src/Server.ts.

JavaScript dynamic values are represented as follows: nullable / possibly-undefined
strings become Option String, instants (Date) become Int milliseconds since epoch,
token objects passed between grant and model become association lists of
(key, value) pairs so that reserved-versus-extended attribute handling can be
expressed, and a thrown value is either an OAuth exception (name, HTTP code,
message) or an arbitrary non-OAuth throwable.  Model (persistence adapter) calls
may throw; they return Except.  Asynchronous fan-out (Promise.all over pure,
independent computations) is sequentialised.  Dynamic-type branches that the
typed embedding makes unrepresentable (e.g. `expiresAt instanceof Date` on a
field that is an Int by construction, `grants instanceof Array`) are noted in
comments at their call sites.
-/

/-- JavaScript value appearing in a token / body object. -/
inductive Val where
  | vstr (s : String)
  | vint (n : Int)
  | vdate (t : Int)
  | vclient (id : String)
  | vuser (id : String)
  | vundefined
deriving Repr, DecidableEq

/-- Object-literal representation of a token (ordered keys, as a JS object). -/
abbrev TokenData := List (String × Val)

/-- JavaScript truthiness of a possibly-undefined string: undefined and the
empty string are falsy. -/
def strTruthy : Option String → Bool
  | none => false
  | some s => s ≠ ""

/-- JavaScript truthiness of an object property (absent key or undefined value
is falsy, an empty string is falsy, numbers model expiry dates and the number 0
is falsy, Date / client / user objects are truthy). -/
def valTruthy : Option Val → Bool
  | none => false
  | some (.vstr s) => s ≠ ""
  | some (.vint n) => n ≠ 0
  | some (.vdate _) => true
  | some (.vclient _) => true
  | some (.vuser _) => true
  | some .vundefined => false

/-- JavaScript `a || b` on possibly-undefined strings. -/
def jsOr (a b : Option String) : Option String :=
  if strTruthy a then a else b

/-- Normalise a falsy string to none (helper for truthiness-guarded reads). -/
def jsGetStr (a : Option String) : Option String :=
  if strTruthy a then a else none

/-- Lift an optional string into a JS object value (undefined when absent). -/
def optVal : Option String → Val
  | some s => .vstr s
  | none => .vundefined

/-- An OAuth taxonomy error: machine name, HTTP status code, message
(src/exceptions hierarchy over OAuthException). -/
structure OAuthErr where
  name : String
  code : Nat
  message : String
deriving Repr, DecidableEq

/-- A thrown JavaScript value: either an OAuth taxonomy error or an arbitrary
non-OAuth throwable (carrying its message). -/
inductive Thrown where
  | oauth (e : OAuthErr)
  | other (msg : String)
deriving Repr, DecidableEq

/-- InvalidArgumentException (src: code 500, name invalid_argument). -/
def invalidArgument (msg : String) : OAuthErr := ⟨"invalid_argument", 500, msg⟩

/-- AccessDeniedException (src: code 400, name access_denied). -/
def accessDenied (msg : String) : OAuthErr := ⟨"access_denied", 400, msg⟩

/-- ServerException (src: code 503, name server_error). -/
def serverError (msg : String) : OAuthErr := ⟨"server_error", 503, msg⟩

/-- InvalidScopeException (src: code 400, name invalid_scope). -/
def invalidScope (msg : String) : OAuthErr := ⟨"invalid_scope", 400, msg⟩

/-- UnauthorizedClientException (src: code 400, name unauthorized_client). -/
def unauthorizedClient (msg : String) : OAuthErr := ⟨"unauthorized_client", 400, msg⟩

/-- UnsupportedGrantTypeException (src: code 400, name unsupported_grant_type). -/
def unsupportedGrantType (msg : String) : OAuthErr := ⟨"unsupported_grant_type", 400, msg⟩

/-- Modelled from the spec: InvalidRequestException is not under src/ (only its
callers are); the error taxonomy table gives invalid_request code 400. -/
def invalidRequest (msg : String) : OAuthErr := ⟨"invalid_request", 400, msg⟩

/-- Modelled from the spec: InvalidGrantException is not under src/; the
taxonomy table gives invalid_grant code 400. -/
def invalidGrant (msg : String) : OAuthErr := ⟨"invalid_grant", 400, msg⟩

/-- Modelled from the spec: InvalidClientException is not under src/; the
taxonomy table gives invalid_client code 400 (401 via an explicit property
override at the call site in TokenHandler.getClient). -/
def invalidClient (msg : String) : OAuthErr := ⟨"invalid_client", 400, msg⟩

/-- UnsupportedResponseTypeException is referenced by AuthorizeHandler; modelled
from the spec taxonomy: code 400, name unsupported_response_type. -/
def unsupportedResponseType (msg : String) : OAuthErr :=
  ⟨"unsupported_response_type", 400, msg⟩

/-- Wrapping at the handler boundary: a non-OAuth throwable becomes a
ServerException carrying its message (new ServerException(e)). -/
def wrapThrown : Thrown → OAuthErr
  | .oauth e => e
  | .other msg => serverError msg

/-! ## Validators

Modelled from the spec: src/validators/IsValidator.ts is not under src/ (only
its callers are).  Character classes follow spec section 6 (RFC 6749 App. A):
VSCHAR, NCHAR, NQCHAR, NQSCHAR, UNICODECHARNOCRLF; URI syntax is approximated
as a nonempty ALPHA scheme followed by a colon and a nonempty remainder. -/

/-- VSCHAR character: %x20-7E. -/
def isVscharChar (c : Char) : Bool := 0x20 ≤ c.toNat && c.toNat ≤ 0x7E

/-- Nonempty all-VSCHAR string. -/
def vschar (s : String) : Bool := s.length > 0 && s.toList.all isVscharChar

/-- NCHAR character: %x2D / %x2E / %x5F / ALPHA / DIGIT. -/
def isNcharChar (c : Char) : Bool :=
  c = '-' || c = '.' || c = '_' || c.isAlpha || c.isDigit

/-- Nonempty all-NCHAR string. -/
def nchar (s : String) : Bool := s.length > 0 && s.toList.all isNcharChar

/-- NQSCHAR character: %x20-21 / %x23-5B / %x5D-7E. -/
def isNqscharChar (c : Char) : Bool :=
  (0x20 ≤ c.toNat && c.toNat ≤ 0x21) ||
  (0x23 ≤ c.toNat && c.toNat ≤ 0x5B) ||
  (0x5D ≤ c.toNat && c.toNat ≤ 0x7E)

/-- All-NQSCHAR string (possibly empty, as the source regex uses a star). -/
def nqschar (s : String) : Bool := s.toList.all isNqscharChar

/-- UNICODECHARNOCRLF character. -/
def isUcharChar (c : Char) : Bool :=
  c.toNat = 0x9 ||
  (0x20 ≤ c.toNat && c.toNat ≤ 0x7E) ||
  (0x80 ≤ c.toNat && c.toNat ≤ 0xD7FF) ||
  (0xE000 ≤ c.toNat && c.toNat ≤ 0xFFFD) ||
  (0x10000 ≤ c.toNat && c.toNat ≤ 0x10FFFF)

/-- Nonempty all-UNICODECHARNOCRLF string. -/
def uchar (s : String) : Bool := s.length > 0 && s.toList.all isUcharChar

/-- URI syntax, approximated: nonempty ALPHA scheme, a colon, nonempty rest. -/
def isUriStr (s : String) : Bool :=
  let scheme := s.takeWhile (· ≠ ':')
  scheme.length > 0 && scheme.length < s.length &&
    scheme.toList.all Char.isAlpha

/-- NQSCHAR validation of a possibly-undefined value.  The source regex tests
the coerced string; an undefined scope coerces to the all-NQSCHAR string
"undefined" and therefore passes. -/
def nqscharOpt : Option String → Bool
  | none => true
  | some s => nqschar s

/-- VSCHAR validation of a possibly-undefined value.  An undefined state
coerces to the all-VSCHAR string "undefined" and passes. -/
def vscharOpt : Option String → Bool
  | none => true
  | some s => vschar s

/-- URI validation of a possibly-undefined value ("undefined" has no colon). -/
def isUriOpt : Option String → Bool
  | none => false
  | some s => isUriStr s

/-! ## Data entities (src/interfaces) -/

/-- Client entity (src/interfaces/ClientInterface via its uses). -/
structure Client where
  id : String
  grants : List String
  redirectUris : List String
  accessTokenLifetime : Option Int
  refreshTokenLifetime : Option Int
deriving Repr, DecidableEq

/-- User entity: opaque identity key. -/
structure User where
  id : String
deriving Repr, DecidableEq

/-- Authorization code as returned by model.getAuthorizationCode.  client and
user are optional because the grant checks their presence at runtime. -/
structure AuthCode where
  authorizationCode : String
  expiresAt : Int
  redirectUri : Option String
  scope : Option String
  client : Option Client
  user : Option User
deriving Repr, DecidableEq

/-- Refresh token as returned by model.getRefreshToken. -/
structure RefreshTokenRec where
  refreshToken : String
  refreshTokenExpiresAt : Option Int
  scope : Option String
  client : Option Client
  user : Option User
deriving Repr, DecidableEq

/-- Authorization code record passed to / returned by
model.saveAuthorizationCode (AuthorizeHandler.saveAuthorizationCode literal). -/
structure AuthCodeSave where
  authorizationCode : String
  expiresAt : Int
  redirectUri : String
  scope : Option String
deriving Repr, DecidableEq

/-! ## Request and Response

Modelled from the spec: the Request / Response value-object classes are not
under src/ (only their users are).  Spec section 2: immutable views of an HTTP
message exposing method, headers, query, body, and (on response)
status/body/headers/redirect.  The Authorization header is represented as
parsed by the basic-auth dependency: absent, a valid Basic credential pair, or
some other raw header value. -/

/-- The Authorization request header as seen through basic-auth. -/
inductive AuthHeader where
  | absent
  | basic (clientId pass : String)
  | otherHeader (raw : String)
deriving Repr, DecidableEq

/-- Truthiness of request.get (the header string). -/
def authHeaderTruthy : AuthHeader → Bool
  | .absent => false
  | .basic _ _ => true
  | .otherHeader raw => raw ≠ ""

/-- Named request parameters used by the pipelines (body or query fields). -/
structure Params where
  grant_type : Option String := none
  code : Option String := none
  redirect_uri : Option String := none
  refresh_token : Option String := none
  scope : Option String := none
  username : Option String := none
  password : Option String := none
  client_id : Option String := none
  client_secret : Option String := none
  state : Option String := none
  response_type : Option String := none
  allowed : Option String := none
deriving Repr, DecidableEq

/-- Decoded HTTP request. -/
structure Request where
  method : String
  contentType : Option String := none
  authorization : AuthHeader := .absent
  body : Params := {}
  query : Params := {}
deriving Repr, DecidableEq

/-- Content-type test (request.is): modelled as equality on the decoded type. -/
def requestIsForm (r : Request) : Bool :=
  r.contentType = some "application/x-www-form-urlencoded"

/-- HTTP response under construction. -/
structure Response where
  status : Option Nat := none
  body : Option TokenData := none
  headers : List (String × String) := []
deriving Repr, DecidableEq

/-- response.set: store a header field, replacing an existing one. -/
def Response.setHeader (r : Response) (k v : String) : Response :=
  { r with headers := (r.headers.filter (fun kv => kv.1 ≠ k)) ++ [(k, v)] }

/-- Modelled from the spec: Response.redirect is not under src/; it sets the
Location header and status 302 (spec sections 4.4 and 6). -/
def Response.redirect (r : Response) (url : String) : Response :=
  { (r.setHeader "Location" url) with status := some 302 }

/-! ## Observable model-call events

The temporal claims are about the order of persistence-adapter calls; the
embedding instruments each model call of interest with a trace event recording
the returned value. -/

/-- Trace event for a model call (recorded when the call returns). -/
inductive Event where
  | getAuthorizationCodeEv (arg : String) (res : Option AuthCode)
  | revokeAuthorizationCodeEv (res : Bool)
  | saveTokenEv (tok : TokenData)
  | getRefreshTokenEv (arg : String) (res : Option RefreshTokenRec)
  | revokeTokenEv (res : Bool)
deriving Repr, DecidableEq

/-- Tokens passed to model.saveToken within a trace. -/
def savedTokens (tr : List Event) : List TokenData :=
  tr.filterMap (fun e => match e with | .saveTokenEv t => some t | _ => none)

/-- Whether the trace contains no model.saveToken call. -/
def noSaveToken (tr : List Event) : Bool :=
  tr.all (fun e => match e with | .saveTokenEv _ => false | _ => true)

/-- Whether the trace contains no model.revokeToken call. -/
def noRevokeToken (tr : List Event) : Bool :=
  tr.all (fun e => match e with | .revokeTokenEv _ => false | _ => true)

/-- Every model.saveToken call is preceded (strictly earlier in the trace) by a
model.revokeAuthorizationCode call.  The accumulator records whether a
revocation has already been observed. -/
def savesAfterRevokeAC : List Event → Bool → Bool
  | [], _ => true
  | .saveTokenEv _ :: rest, seen => seen && savesAfterRevokeAC rest seen
  | .revokeAuthorizationCodeEv _ :: rest, _ => savesAfterRevokeAC rest true
  | _ :: rest, seen => savesAfterRevokeAC rest seen

/-- Every model.saveToken call is preceded by a model.revokeToken call. -/
def savesAfterRevokeRT : List Event → Bool → Bool
  | [], _ => true
  | .saveTokenEv _ :: rest, seen => seen && savesAfterRevokeRT rest seen
  | .revokeTokenEv _ :: rest, _ => savesAfterRevokeRT rest true
  | _ :: rest, seen => savesAfterRevokeRT rest seen

/-! ## The model (persistence adapter) contract

Spec section 4.6.  Every operation may throw (the adapter is host code), hence
the Except results; a null return is Option.none.  Optional capabilities are
Option-valued fields. -/

/-- The persistence adapter. -/
structure OAuthModel where
  getClient : String → Option String → Except Thrown (Option Client)
  getAuthorizationCode : String → Except Thrown (Option AuthCode)
  revokeAuthorizationCode : AuthCode → Except Thrown Bool
  saveToken : TokenData → Client → User → Except Thrown TokenData
  getUser : String → String → Except Thrown (Option User)
  getUserFromClient : Client → Except Thrown (Option User)
  getRefreshToken : String → Except Thrown (Option RefreshTokenRec)
  revokeToken : RefreshTokenRec → Except Thrown Bool
  saveAuthorizationCode :
    AuthCodeSave → Client → Option User → Except Thrown AuthCodeSave
  validateScope :
    Option (User → Client → Option String → Except Thrown (Option String))
  generateAccessToken :
    Option (Client → User → Option String → Except Thrown (Option String))
  generateRefreshToken :
    Option (Client → User → Option String → Except Thrown (Option String))
  generateAuthorizationCode :
    Option (Client → Option User → Option String → Except Thrown (Option String))

/-! ## AbstractGrantType (src/grant-types/AbstractGrantType.ts) -/

/-- Grant construction options (accessTokenLifetime, refreshTokenLifetime,
alwaysIssueNewRefreshToken; the model is passed separately).  The
alwaysIssueNewRefreshToken option keeps its JavaScript three-state value:
none is undefined, some false is the explicit literal false. -/
structure GrantOpts where
  accessTokenLifetime : Int
  refreshTokenLifetime : Int
  alwaysIssueNewRefreshToken : Option Bool
deriving Repr, DecidableEq

/-- AbstractGrantType.generateAccessToken: a model override whose result is
falsy falls back to the cryptographically random token rand. -/
def AbstractGrantType.generateAccessToken (m : OAuthModel) (rand : String)
    (client : Client) (user : User) (scope : Option String) :
    Except Thrown String :=
  match m.generateAccessToken with
  | some f =>
    match f client user scope with
    | .error e => .error e
    | .ok t => .ok (match jsGetStr t with | some s => s | none => rand)
  | none => .ok rand

/-- AbstractGrantType.generateRefreshToken (same fallback shape). -/
def AbstractGrantType.generateRefreshToken (m : OAuthModel) (rand : String)
    (client : Client) (user : User) (scope : Option String) :
    Except Thrown String :=
  match m.generateRefreshToken with
  | some f =>
    match f client user scope with
    | .error e => .error e
    | .ok t => .ok (match jsGetStr t with | some s => s | none => rand)
  | none => .ok rand

/-- AbstractGrantType.getAccessTokenExpiresAt: now plus the lifetime in
seconds (Date.setSeconds adds lifetime * 1000 ms). -/
def AbstractGrantType.getAccessTokenExpiresAt (opts : GrantOpts) (now : Int) : Int :=
  now + opts.accessTokenLifetime * 1000

/-- AbstractGrantType.getRefreshTokenExpiresAt. -/
def AbstractGrantType.getRefreshTokenExpiresAt (opts : GrantOpts) (now : Int) : Int :=
  now + opts.refreshTokenLifetime * 1000

/-- AbstractGrantType.getScope: reads request.body.scope; a value failing
NQSCHAR validation raises InvalidArgumentException (code 500). -/
def AbstractGrantType.getScope (req : Request) : Except Thrown (Option String) :=
  if ¬ nqscharOpt req.body.scope then
    .error (.oauth (invalidArgument "Invalid parameter: `scope`"))
  else
    .ok req.body.scope

/-- AbstractGrantType.validateScope: with a model override, a falsy result
raises InvalidScopeException; without one the requested scope passes through. -/
def AbstractGrantType.validateScope (m : OAuthModel) (user : User) (client : Client)
    (scope : Option String) : Except Thrown (Option String) :=
  match m.validateScope with
  | some f =>
    match f user client scope with
    | .error e => .error e
    | .ok sc =>
      if strTruthy sc then .ok sc
      else .error (.oauth (invalidScope "Invalid scope: Requested scope is invalid"))
  | none => .ok scope

/-- The awaited model.saveToken call, recorded as a trace event. -/
def saveTokenCall (m : OAuthModel) (token : TokenData) (client : Client)
    (user : User) : Except Thrown TokenData × List Event :=
  (m.saveToken token client user, [.saveTokenEv token])

/-! ## AuthorizationCodeGrantType (src/grant-types/AuthorizationCodeGrantType.ts) -/

/-- AuthorizationCodeGrantType.getAuthorizationCode.  Returns the code together
with the extracted user (checked present).  The `expiresAt instanceof Date`
branch is unrepresentable: expiresAt is an Int by construction. -/
def AuthorizationCodeGrantType.getAuthorizationCode (m : OAuthModel) (req : Request)
    (client : Client) (now : Int) :
    Except Thrown (AuthCode × User) × List Event :=
  match req.body.code with
  | none => (.error (.oauth (invalidRequest "Missing parameter: `code`")), [])
  | some c =>
    if c = "" then
      (.error (.oauth (invalidRequest "Missing parameter: `code`")), [])
    else if ¬ vschar c then
      (.error (.oauth (invalidRequest "Invalid parameter: `code`")), [])
    else
      match m.getAuthorizationCode c with
      | .error e => (.error e, [])
      | .ok none =>
        (.error (.oauth (invalidGrant "Invalid grant: authorization code is invalid")),
         [.getAuthorizationCodeEv c none])
      | .ok (some code) =>
        let tr := [Event.getAuthorizationCodeEv c (some code)]
        match code.client, code.user with
        | none, _ =>
          (.error (.oauth (serverError
            "Server error: `getAuthorizationCode()` did not return a `client` object")), tr)
        | some _, none =>
          (.error (.oauth (serverError
            "Server error: `getAuthorizationCode()` did not return a `user` object")), tr)
        | some codeClient, some codeUser =>
          if codeClient.id ≠ client.id then
            (.error (.oauth (invalidGrant "Invalid grant: authorization code is invalid")), tr)
          else if code.expiresAt < now then
            (.error (.oauth (invalidGrant "Invalid grant: authorization code has expired")), tr)
          else if strTruthy code.redirectUri ∧ ¬ isUriOpt code.redirectUri then
            (.error (.oauth (invalidGrant "Invalid grant: `redirect_uri` is not a valid URI")), tr)
          else
            (.ok (code, codeUser), tr)

/-- AuthorizationCodeGrantType.validateRedirectUri. -/
def AuthorizationCodeGrantType.validateRedirectUri (req : Request) (code : AuthCode) :
    Except Thrown Unit :=
  if ¬ strTruthy code.redirectUri then .ok ()
  else
    let redirectUri := jsOr req.body.redirect_uri req.query.redirect_uri
    if ¬ isUriOpt redirectUri then
      .error (.oauth (invalidRequest "Invalid request: `redirect_uri` is not a valid URI"))
    else if redirectUri ≠ code.redirectUri then
      .error (.oauth (invalidRequest "Invalid request: `redirect_uri` is invalid"))
    else .ok ()

/-- AuthorizationCodeGrantType.revokeAuthorizationCode: a falsy revocation
status raises invalid_grant. -/
def AuthorizationCodeGrantType.revokeAuthorizationCode (m : OAuthModel)
    (code : AuthCode) : Except Thrown AuthCode × List Event :=
  match m.revokeAuthorizationCode code with
  | .error e => (.error e, [])
  | .ok status =>
    if status then (.ok code, [.revokeAuthorizationCodeEv status])
    else
      (.error (.oauth (invalidGrant "Invalid grant: authorization code is invalid")),
       [.revokeAuthorizationCodeEv status])

/-- AuthorizationCodeGrantType.saveToken.  The Promise.all fan-out
(validateScope, generateAccessToken, generateRefreshToken, the two expiry
computations) is sequentialised in source order; the token object literal keeps
the source's key order, including the authorizationCode audit field. -/
def AuthorizationCodeGrantType.saveToken (m : OAuthModel) (opts : GrantOpts)
    (now : Int) (rand : Nat → String) (user : User) (client : Client)
    (authorizationCode : String) (scope : Option String) :
    Except Thrown TokenData × List Event :=
  match AbstractGrantType.validateScope m user client scope with
  | .error e => (.error e, [])
  | .ok accessScope =>
    match AbstractGrantType.generateAccessToken m (rand 0) client user scope with
    | .error e => (.error e, [])
    | .ok accessToken =>
      match AbstractGrantType.generateRefreshToken m (rand 1) client user scope with
      | .error e => (.error e, [])
      | .ok refreshToken =>
        let token : TokenData :=
          [("accessToken", .vstr accessToken),
           ("authorizationCode", .vstr authorizationCode),
           ("accessTokenExpiresAt", .vdate (AbstractGrantType.getAccessTokenExpiresAt opts now)),
           ("refreshToken", .vstr refreshToken),
           ("refreshTokenExpiresAt", .vdate (AbstractGrantType.getRefreshTokenExpiresAt opts now)),
           ("scope", optVal accessScope)]
        saveTokenCall m token client user

/-- AuthorizationCodeGrantType.handle: look the code up, validate the redirect
URI, revoke the code, then save the token.  The missing-request /
missing-client guards are unrepresentable in the typed embedding. -/
def AuthorizationCodeGrantType.handle (m : OAuthModel) (opts : GrantOpts)
    (req : Request) (client : Client) (now : Int) (rand : Nat → String) :
    Except Thrown TokenData × List Event :=
  match AuthorizationCodeGrantType.getAuthorizationCode m req client now with
  | (.error e, tr) => (.error e, tr)
  | (.ok (code, codeUser), tr) =>
    match AuthorizationCodeGrantType.validateRedirectUri req code with
    | .error e => (.error e, tr)
    | .ok _ =>
      match AuthorizationCodeGrantType.revokeAuthorizationCode m code with
      | (.error e, tr') => (.error e, tr ++ tr')
      | (.ok _, tr') =>
        match AuthorizationCodeGrantType.saveToken m opts now rand codeUser client
            code.authorizationCode code.scope with
        | (res, tr'') => (res, tr ++ tr' ++ tr'')

/-! ## RefreshTokenGrantType (second class in AuthorizationCodeGrantType.ts) -/

/-- RefreshTokenGrantType.getRefreshToken.  Returns the token with the
extracted user.  The `refreshTokenExpiresAt instanceof Date` branch is
unrepresentable (the field is Option Int by construction). -/
def RefreshTokenGrantType.getRefreshToken (m : OAuthModel) (req : Request)
    (client : Client) (now : Int) :
    Except Thrown (RefreshTokenRec × User) × List Event :=
  match req.body.refresh_token with
  | none => (.error (.oauth (invalidRequest "Missing parameter: `refresh_token`")), [])
  | some rt =>
    if rt = "" then
      (.error (.oauth (invalidRequest "Missing parameter: `refresh_token`")), [])
    else if ¬ vschar rt then
      (.error (.oauth (invalidRequest "Invalid parameter: `refresh_token`")), [])
    else
      match m.getRefreshToken rt with
      | .error e => (.error e, [])
      | .ok none =>
        (.error (.oauth (invalidGrant "Invalid grant: refresh token is invalid")),
         [.getRefreshTokenEv rt none])
      | .ok (some token) =>
        let tr := [Event.getRefreshTokenEv rt (some token)]
        match token.client, token.user with
        | none, _ =>
          (.error (.oauth (serverError
            "Server error: `getRefreshToken()` did not return a `client` object")), tr)
        | some _, none =>
          (.error (.oauth (serverError
            "Server error: `getRefreshToken()` did not return a `user` object")), tr)
        | some tokClient, some tokUser =>
          if tokClient.id ≠ client.id then
            (.error (.oauth (invalidGrant "Invalid grant: refresh token is invalid")), tr)
          else
            match token.refreshTokenExpiresAt with
            | some e =>
              if e < now then
                (.error (.oauth (invalidGrant "Invalid grant: refresh token has expired")), tr)
              else (.ok (token, tokUser), tr)
            | none => (.ok (token, tokUser), tr)

/-- RefreshTokenGrantType.revokeToken: skipped entirely when
alwaysIssueNewRefreshToken is the explicit literal false; otherwise a falsy
revocation status raises invalid_grant. -/
def RefreshTokenGrantType.revokeToken (m : OAuthModel) (opts : GrantOpts)
    (token : RefreshTokenRec) : Except Thrown RefreshTokenRec × List Event :=
  if opts.alwaysIssueNewRefreshToken = some false then (.ok token, [])
  else
    match m.revokeToken token with
    | .error e => (.error e, [])
    | .ok status =>
      if status then (.ok token, [.revokeTokenEv status])
      else
        (.error (.oauth (invalidGrant "Invalid grant: refresh token is invalid")),
         [.revokeTokenEv status])

/-- RefreshTokenGrantType.saveToken: the token literal holds accessToken,
accessTokenExpiresAt and scope; refreshToken and refreshTokenExpiresAt are
appended only when alwaysIssueNewRefreshToken is not the literal false. -/
def RefreshTokenGrantType.tokenLiteral (opts : GrantOpts) (now : Int)
    (accessToken refreshToken : String) (scope : Option String) : TokenData :=
  [("accessToken", .vstr accessToken),
   ("accessTokenExpiresAt", .vdate (AbstractGrantType.getAccessTokenExpiresAt opts now)),
   ("scope", optVal scope)] ++
  (if opts.alwaysIssueNewRefreshToken ≠ some false then
    [("refreshToken", .vstr refreshToken),
     ("refreshTokenExpiresAt", .vdate (AbstractGrantType.getRefreshTokenExpiresAt opts now))]
   else [])

/-- RefreshTokenGrantType.saveToken body continued: generate the tokens and
persist the literal. -/
def RefreshTokenGrantType.saveToken (m : OAuthModel) (opts : GrantOpts)
    (now : Int) (rand : Nat → String) (user : User) (client : Client)
    (scope : Option String) : Except Thrown TokenData × List Event :=
  match AbstractGrantType.generateAccessToken m (rand 0) client user scope with
  | .error e => (.error e, [])
  | .ok accessToken =>
    match AbstractGrantType.generateRefreshToken m (rand 1) client user scope with
    | .error e => (.error e, [])
    | .ok refreshToken =>
      saveTokenCall m
        (RefreshTokenGrantType.tokenLiteral opts now accessToken refreshToken scope)
        client user

/-- RefreshTokenGrantType.handle: look the refresh token up, (conditionally)
revoke it, then save a new token carrying the original token's scope. -/
def RefreshTokenGrantType.handle (m : OAuthModel) (opts : GrantOpts)
    (req : Request) (client : Client) (now : Int) (rand : Nat → String) :
    Except Thrown TokenData × List Event :=
  match RefreshTokenGrantType.getRefreshToken m req client now with
  | (.error e, tr) => (.error e, tr)
  | (.ok (token, tokUser), tr) =>
    match RefreshTokenGrantType.revokeToken m opts token with
    | (.error e, tr') => (.error e, tr ++ tr')
    | (.ok _, tr') =>
      match RefreshTokenGrantType.saveToken m opts now rand tokUser client token.scope with
      | (res, tr'') => (res, tr ++ tr' ++ tr'')

/-! ## PasswordGrantType (src/grant-types, unnamed part) -/

/-- PasswordGrantType.getUser: username and password must be present and
UNICODECHARNOCRLF; the model is the authority on the pair. -/
def PasswordGrantType.getUser (m : OAuthModel) (req : Request) :
    Except Thrown User :=
  if ¬ strTruthy req.body.username then
    .error (.oauth (invalidRequest "Missing parameter: `username`"))
  else if ¬ strTruthy req.body.password then
    .error (.oauth (invalidRequest "Missing parameter: `password`"))
  else
    match req.body.username, req.body.password with
    | some u, some p =>
      if ¬ uchar u then
        .error (.oauth (invalidRequest "Invalid parameter: `username`"))
      else if ¬ uchar p then
        .error (.oauth (invalidRequest "Invalid parameter: `password`"))
      else
        match m.getUser u p with
        | .error e => .error e
        | .ok none =>
          .error (.oauth (invalidGrant "Invalid grant: user credentials are invalid"))
        | .ok (some user) => .ok user
    | _, _ =>
      .error (.oauth (invalidRequest "Missing parameter: `username`"))

/-- PasswordGrantType.saveToken. -/
def PasswordGrantType.saveToken (m : OAuthModel) (opts : GrantOpts)
    (now : Int) (rand : Nat → String) (user : User) (client : Client)
    (scope : Option String) : Except Thrown TokenData × List Event :=
  match AbstractGrantType.validateScope m user client scope with
  | .error e => (.error e, [])
  | .ok accessScope =>
    match AbstractGrantType.generateAccessToken m (rand 0) client user scope with
    | .error e => (.error e, [])
    | .ok accessToken =>
      match AbstractGrantType.generateRefreshToken m (rand 1) client user scope with
      | .error e => (.error e, [])
      | .ok refreshToken =>
        let token : TokenData :=
          [("accessToken", .vstr accessToken),
           ("accessTokenExpiresAt", .vdate (AbstractGrantType.getAccessTokenExpiresAt opts now)),
           ("refreshToken", .vstr refreshToken),
           ("refreshTokenExpiresAt", .vdate (AbstractGrantType.getRefreshTokenExpiresAt opts now)),
           ("scope", optVal accessScope)]
        saveTokenCall m token client user

/-- PasswordGrantType.handle: scope first (AbstractGrantType.getScope), then
user lookup, then saveToken. -/
def PasswordGrantType.handle (m : OAuthModel) (opts : GrantOpts)
    (req : Request) (client : Client) (now : Int) (rand : Nat → String) :
    Except Thrown TokenData × List Event :=
  match AbstractGrantType.getScope req with
  | .error e => (.error e, [])
  | .ok scope =>
    match PasswordGrantType.getUser m req with
    | .error e => (.error e, [])
    | .ok user => PasswordGrantType.saveToken m opts now rand user client scope

/-! ## ClientCredentialsGrantType (src/grant-types/ClientCredentialsGrantType.ts) -/

/-- ClientCredentialsGrantType.getUserFromClient. -/
def ClientCredentialsGrantType.getUserFromClient (m : OAuthModel) (client : Client) :
    Except Thrown User :=
  match m.getUserFromClient client with
  | .error e => .error e
  | .ok none =>
    .error (.oauth (invalidGrant "Invalid grant: user credentials are invalid"))
  | .ok (some user) => .ok user

/-- ClientCredentialsGrantType.saveToken: access token only, no refresh token. -/
def ClientCredentialsGrantType.saveToken (m : OAuthModel) (opts : GrantOpts)
    (now : Int) (rand : Nat → String) (user : User) (client : Client)
    (scope : Option String) : Except Thrown TokenData × List Event :=
  match AbstractGrantType.validateScope m user client scope with
  | .error e => (.error e, [])
  | .ok accessScope =>
    match AbstractGrantType.generateAccessToken m (rand 0) client user scope with
    | .error e => (.error e, [])
    | .ok accessToken =>
      let token : TokenData :=
        [("accessToken", .vstr accessToken),
         ("accessTokenExpiresAt", .vdate (AbstractGrantType.getAccessTokenExpiresAt opts now)),
         ("scope", optVal accessScope)]
      saveTokenCall m token client user

/-- ClientCredentialsGrantType.handle. -/
def ClientCredentialsGrantType.handle (m : OAuthModel) (opts : GrantOpts)
    (req : Request) (client : Client) (now : Int) (rand : Nat → String) :
    Except Thrown TokenData × List Event :=
  match AbstractGrantType.getScope req with
  | .error e => (.error e, [])
  | .ok scope =>
    match ClientCredentialsGrantType.getUserFromClient m client with
    | .error e => (.error e, [])
    | .ok user => ClientCredentialsGrantType.saveToken m opts now rand user client scope

/-! ## TokenModel (src/models/TokenModel.ts, unnamed part) -/

/-- The reserved attribute names (modelAttributes in TokenModel.ts). -/
def modelAttributes : List String :=
  ["accessToken", "accessTokenExpiresAt", "client", "refreshToken",
   "refreshTokenExpiresAt", "scope", "user"]

/-- Property read on a token data object. -/
def tmGet (data : TokenData) (k : String) : Option Val := data.lookup k

/-- Whether an optional value is a Date instance. -/
def isDateVal : Option Val → Bool
  | some (.vdate _) => true
  | _ => false

/-- The constructed TokenModel. -/
structure TokenModelS where
  accessToken : Option Val
  accessTokenExpiresAt : Option Val
  refreshToken : Option Val
  refreshTokenExpiresAt : Option Val
  scope : Option Val
  client : Option Val
  user : Option Val
  customAttributes : Option TokenData
  accessTokenLifetime : Option Int
deriving Repr, DecidableEq

/-- TokenModel constructor: require truthy accessToken, client and user;
require expiry fields, when truthy, to be Date instances; copy the reserved
fields; when allowExtendedTokenAttributes is set, copy every non-reserved key
into customAttributes; when accessTokenExpiresAt is truthy, derive
accessTokenLifetime as the floor of the millisecond difference to now divided
by 1000 (Math.floor over real division is integer floor division). -/
def tokenModelNew (data : TokenData) (allowExtendedTokenAttributes : Bool)
    (now : Int) : Except Thrown TokenModelS :=
  if ¬ valTruthy (tmGet data "accessToken") then
    .error (.oauth (invalidArgument "Missing parameter: `accessToken`"))
  else if ¬ valTruthy (tmGet data "client") then
    .error (.oauth (invalidArgument "Missing parameter: `client`"))
  else if ¬ valTruthy (tmGet data "user") then
    .error (.oauth (invalidArgument "Missing parameter: `user`"))
  else if valTruthy (tmGet data "accessTokenExpiresAt") ∧
      ¬ isDateVal (tmGet data "accessTokenExpiresAt") then
    .error (.oauth (invalidArgument "Invalid parameter: `accessTokenExpiresAt`"))
  else if valTruthy (tmGet data "refreshTokenExpiresAt") ∧
      ¬ isDateVal (tmGet data "refreshTokenExpiresAt") then
    .error (.oauth (invalidArgument "Invalid parameter: `refreshTokenExpiresAt`"))
  else
    .ok
      { accessToken := tmGet data "accessToken"
        accessTokenExpiresAt := tmGet data "accessTokenExpiresAt"
        refreshToken := tmGet data "refreshToken"
        refreshTokenExpiresAt := tmGet data "refreshTokenExpiresAt"
        scope := tmGet data "scope"
        client := tmGet data "client"
        user := tmGet data "user"
        customAttributes :=
          if allowExtendedTokenAttributes then
            some (data.filter (fun kv => ¬ modelAttributes.contains kv.1))
          else none
        accessTokenLifetime :=
          match tmGet data "accessTokenExpiresAt" with
          | some (.vdate t) => some (Int.fdiv (t - now) 1000)
          | _ => none }

/-! ## BearerTokenType

Modelled from the spec: src/token-types/BearerTokenType.ts is not under src/
(only TokenHandler.getTokenType, which constructs it with accessToken,
accessTokenLifetime, refreshToken, scope and customAttributes, is).  Spec
section 6 success body: access_token, token_type Bearer, expires_in,
refresh_token and scope omitted when null/absent, extended keys appended. -/
def BearerTokenType.valueOf (accessToken : Option Val)
    (accessTokenLifetime : Option Int) (refreshToken : Option Val)
    (scope : Option Val) (customAttributes : Option TokenData) : TokenData :=
  [("access_token", accessToken.getD .vundefined),
   ("token_type", .vstr "Bearer")] ++
  (match accessTokenLifetime with
   | some n => [("expires_in", Val.vint n)]
   | none => []) ++
  (if valTruthy refreshToken then [("refresh_token", refreshToken.getD .vundefined)] else []) ++
  (if valTruthy scope then [("scope", scope.getD .vundefined)] else []) ++
  customAttributes.getD []

/-! ## TokenHandler (src/handlers/TokenHandler.ts) -/

/-- TokenHandler options after Server defaults are merged.
requireClientAuthentication is a JavaScript object: an association list of
(grant name, flag); alwaysIssueNewRefreshToken keeps its raw three-state
option value; extendedGrantTypes maps extension grant names to handlers. -/
structure TokenHandlerOpts where
  accessTokenLifetime : Int
  refreshTokenLifetime : Int
  allowExtendedTokenAttributes : Bool
  requireClientAuthentication : List (String × Bool)
  alwaysIssueNewRefreshToken : Option Bool
  extendedGrantTypes :
    List (String × (Request → Client → Except Thrown TokenData × List Event))

/-- TokenHandler.isClientAuthenticationRequired: with a non-empty map an
explicit entry decides, a missing entry defaults to true; with the empty
(default) map every grant requires authentication. -/
def TokenHandler.isClientAuthenticationRequired
    (requireClientAuthentication : List (String × Bool))
    (grantType : Option String) : Bool :=
  if requireClientAuthentication.length > 0 then
    match (match grantType with
           | some g => requireClientAuthentication.lookup g
           | none => none) with
    | some b => b
    | none => true
  else true

/-- Resolved client credentials. -/
structure Credentials where
  clientId : String
  clientSecret : Option String
deriving Repr, DecidableEq

/-- TokenHandler.getClientCredentials: HTTP Basic is preferred; otherwise the
body pair client_id / client_secret; a lone body client_id is accepted only
when the grant does not require client authentication. -/
def TokenHandler.getClientCredentials (opts : TokenHandlerOpts) (req : Request) :
    Except Thrown Credentials :=
  let grantType := req.body.grant_type
  match req.authorization with
  | .basic cid pass => .ok ⟨cid, some pass⟩
  | _ =>
    match jsGetStr req.body.client_id, jsGetStr req.body.client_secret with
    | some cid, some cs => .ok ⟨cid, some cs⟩
    | _, _ =>
      if ¬ TokenHandler.isClientAuthenticationRequired
          opts.requireClientAuthentication grantType then
        match jsGetStr req.body.client_id with
        | some cid => .ok ⟨cid, none⟩
        | none =>
          .error (.oauth (invalidClient "Invalid client: cannot retrieve client credentials"))
      else
        .error (.oauth (invalidClient "Invalid client: cannot retrieve client credentials"))

/-- TokenHandler.getClient.  The catch clause inspects the thrown value: an
InvalidClientException combined with a (truthy) Authorization request header
echoes WWW-Authenticate and rethrows with status 401.  The client-grants
checks `!client.grants` and `grants instanceof Array` are unrepresentable in
the typed embedding (a Lean List is always a JS array and [] is truthy). -/
def TokenHandler.getClient (m : OAuthModel) (opts : TokenHandlerOpts)
    (req : Request) (resp : Response) : Except Thrown Client × Response :=
  match TokenHandler.getClientCredentials opts req with
  | .error e => (.error e, resp)
  | .ok credentials =>
    let grantType := req.body.grant_type
    if credentials.clientId = "" then
      (.error (.oauth (invalidRequest "Missing parameter: `client_id`")), resp)
    else if TokenHandler.isClientAuthenticationRequired
        opts.requireClientAuthentication grantType ∧
        ¬ strTruthy credentials.clientSecret then
      (.error (.oauth (invalidRequest "Missing parameter: `client_secret`")), resp)
    else if ¬ vschar credentials.clientId then
      (.error (.oauth (invalidRequest "Invalid parameter: `client_id`")), resp)
    else if strTruthy credentials.clientSecret ∧
        ¬ vscharOpt credentials.clientSecret then
      (.error (.oauth (invalidRequest "Invalid parameter: `client_secret`")), resp)
    else
      let caught : Thrown → Except Thrown Client × Response := fun e =>
        match e with
        | .oauth err =>
          if err.name = "invalid_client" ∧ authHeaderTruthy req.authorization then
            (.error (.oauth ⟨"invalid_client", 401, err.message⟩),
             resp.setHeader "WWW-Authenticate" "Basic realm=\"Service\"")
          else (.error e, resp)
        | _ => (.error e, resp)
      match m.getClient credentials.clientId credentials.clientSecret with
      | .error e => caught e
      | .ok none => caught (.oauth (invalidClient "Invalid client: client is invalid"))
      | .ok (some client) => (.ok client, resp)

/-- Built-in grant registry keys (the grantTypes constant). -/
def builtinGrantNames : List String :=
  ["authorization_code", "client_credentials", "password", "refresh_token"]

/-- Key lookup in the combined built-in-plus-extension registry (the object
spread lets an extension override a built-in key). -/
def TokenHandler.grantTypesHas (opts : TokenHandlerOpts) (g : String) : Bool :=
  (opts.extendedGrantTypes.lookup g).isSome || builtinGrantNames.contains g

/-- TokenHandler.getAccessTokenLifetime: client override or handler default
(JavaScript ||, so a 0 lifetime falls back). -/
def TokenHandler.getAccessTokenLifetime (opts : TokenHandlerOpts) (client : Client) : Int :=
  match client.accessTokenLifetime with
  | some n => if n = 0 then opts.accessTokenLifetime else n
  | none => opts.accessTokenLifetime

/-- TokenHandler.getRefreshTokenLifetime. -/
def TokenHandler.getRefreshTokenLifetime (opts : TokenHandlerOpts) (client : Client) : Int :=
  match client.refreshTokenLifetime with
  | some n => if n = 0 then opts.refreshTokenLifetime else n
  | none => opts.refreshTokenLifetime

/-- Dispatch to the selected grant (new Type(options).handle(request, client)).
The grant receives the per-client lifetimes and the Boolean
alwaysIssueNewRefreshToken computed in the TokenHandler constructor
(options.alwaysIssueNewRefreshToken !== false). -/
def TokenHandler.dispatchGrant (m : OAuthModel) (opts : TokenHandlerOpts)
    (g : String) (req : Request) (client : Client) (now : Int)
    (rand : Nat → String) : Except Thrown TokenData × List Event :=
  let gopts : GrantOpts :=
    { accessTokenLifetime := TokenHandler.getAccessTokenLifetime opts client
      refreshTokenLifetime := TokenHandler.getRefreshTokenLifetime opts client
      alwaysIssueNewRefreshToken :=
        some (opts.alwaysIssueNewRefreshToken ≠ some false) }
  match opts.extendedGrantTypes.lookup g with
  | some f => f req client
  | none =>
    if g = "authorization_code" then
      AuthorizationCodeGrantType.handle m gopts req client now rand
    else if g = "client_credentials" then
      ClientCredentialsGrantType.handle m gopts req client now rand
    else if g = "password" then
      PasswordGrantType.handle m gopts req client now rand
    else if g = "refresh_token" then
      RefreshTokenGrantType.handle m gopts req client now rand
    else
      -- Dead branch: reachable only when grantTypesHas failed, in which case
      -- handleGrantType has already raised unsupported_grant_type.
      (.error (.oauth (serverError "unreachable")), [])

/-- TokenHandler.handleGrantType: grant_type must be present, NCHAR-or-URI
valid, a registry key, and listed in client.grants — in that order — before
the grant is invoked. -/
def TokenHandler.handleGrantType (m : OAuthModel) (opts : TokenHandlerOpts)
    (req : Request) (client : Client) (now : Int) (rand : Nat → String) :
    Except Thrown TokenData × List Event :=
  match jsGetStr req.body.grant_type with
  | none => (.error (.oauth (invalidRequest "Missing parameter: `grant_type`")), [])
  | some g =>
    if ¬ (nchar g || isUriStr g) then
      (.error (.oauth (invalidRequest "Invalid parameter: `grant_type`")), [])
    else if ¬ TokenHandler.grantTypesHas opts g then
      (.error (.oauth (unsupportedGrantType "Unsupported grant type: `grant_type` is invalid")), [])
    else if ¬ client.grants.contains g then
      (.error (.oauth (unauthorizedClient "Unauthorized client: `grant_type` is invalid")), [])
    else
      TokenHandler.dispatchGrant m opts g req client now rand

/-- TokenHandler.updateSuccessResponse: body from the Bearer encoding plus the
no-store / no-cache headers. -/
def TokenHandler.updateSuccessResponse (resp : Response) (body : TokenData) : Response :=
  ((({ resp with body := some body }).setHeader
    "Cache-Control" "no-store").setHeader "Pragma" "no-cache")

/-- TokenHandler.updateErrorResponse: body from the error's name and message,
status from its code. -/
def TokenHandler.updateErrorResponse (resp : Response) (e : OAuthErr) : Response :=
  { resp with
    body := some [("error", .vstr e.name), ("error_description", .vstr e.message)]
    status := some e.code }

/-- The try block of TokenHandler.handle: resolve the client, dispatch the
grant, wrap the result in a TokenModel, encode it as a Bearer token and decorate
the response. -/
def TokenHandler.handleTry (m : OAuthModel) (opts : TokenHandlerOpts)
    (req : Request) (resp : Response) (now : Int) (rand : Nat → String) :
    Except Thrown TokenData × Response × List Event :=
  match TokenHandler.getClient m opts req resp with
  | (.error e, resp') => (.error e, resp', [])
  | (.ok client, resp') =>
    match TokenHandler.handleGrantType m opts req client now rand with
    | (.error e, tr) => (.error e, resp', tr)
    | (.ok data, tr) =>
      match tokenModelNew data opts.allowExtendedTokenAttributes now with
      | .error e => (.error e, resp', tr)
      | .ok tm =>
        let body := BearerTokenType.valueOf tm.accessToken tm.accessTokenLifetime
          tm.refreshToken tm.scope tm.customAttributes
        (.ok data, TokenHandler.updateSuccessResponse resp' body, tr)

/-- TokenHandler.handle: the method and content-type preconditions sit outside
the try/catch; inside it any non-OAuth throwable is wrapped as a
ServerException, the error response is written, and the error is rethrown.
The instanceof Request / Response guards are unrepresentable. -/
def TokenHandler.handle (m : OAuthModel) (opts : TokenHandlerOpts)
    (req : Request) (resp : Response) (now : Int) (rand : Nat → String) :
    Except OAuthErr TokenData × Response × List Event :=
  if req.method ≠ "POST" then
    (.error (invalidRequest "Invalid request: method must be POST"), resp, [])
  else if ¬ requestIsForm req then
    (.error (invalidRequest
      "Invalid request: content must be application/x-www-form-urlencoded"), resp, [])
  else
    match TokenHandler.handleTry m opts req resp now rand with
    | (.ok data, resp', tr) => (.ok data, resp', tr)
    | (.error e, resp', tr) =>
      let e' := wrapThrown e
      (.error e', TokenHandler.updateErrorResponse resp' e', tr)

/-! ## Redirect URIs (node url parse / format)

Modelled from the spec: the node url module is external.  A parsed URL is a
base string plus an ordered query-parameter list; formatting joins them.
Pre-existing query parameters of the redirect URI are not modelled. -/

/-- Parsed redirect URL: base plus query parameters. -/
structure UrlQ where
  base : String
  query : List (String × String)
deriving Repr, DecidableEq

/-- Serialise a parsed URL (format). -/
def formatUrl (u : UrlQ) : String :=
  match u.query with
  | [] => u.base
  | q => u.base ++ "?" ++ String.intercalate "&"
      (q.map (fun kv => kv.1 ++ "=" ++ kv.2))

/-! ## CodeResponseType (src/response-types/CodeResponseType.ts, unnamed part) -/

/-- CodeResponseType constructor: the code must be truthy. -/
def CodeResponseType.new (code : String) : Except Thrown String :=
  if code = "" then .error (.oauth (invalidArgument "Missing parameter: `code`"))
  else .ok code

/-- CodeResponseType.buildRedirectUri: parse the redirect URI, set query.code,
clear the search string. -/
def CodeResponseType.buildRedirectUri (redirectUri : String) (code : String) :
    Except Thrown UrlQ :=
  if redirectUri = "" then
    .error (.oauth (invalidArgument "Missing parameter: `redirectUri`"))
  else .ok { base := redirectUri, query := [("code", code)] }

/-! ## AuthorizeHandler (src/handlers/AuthorizeHandler.ts) -/

/-- AuthorizeHandler options after Server defaults are merged. -/
structure AuthorizeOpts where
  allowEmptyState : Bool
  authorizationCodeLifetime : Int
deriving Repr, DecidableEq

/-- The configured authenticate handler: either the library's own
AuthenticateHandler (whose result's .user field is extracted without a null
check) or a custom handler (whose null result raises server_error).  Modelled
from the spec section 4.4 user resolution; AuthenticateHandler itself is not
under src/. -/
inductive AuthenticateVariant where
  | own (f : Request → Response → Except Thrown (Option User))
  | custom (f : Request → Response → Except Thrown (Option User))

/-- AuthorizeHandler.getUser. -/
def AuthorizeHandler.getUser (h : AuthenticateVariant) (req : Request)
    (resp : Response) : Except Thrown (Option User) :=
  match h with
  | .own f => f req resp
  | .custom f =>
    match f req resp with
    | .error e => .error e
    | .ok none =>
      .error (.oauth (serverError "Server error: `handle()` did not return a `user` object"))
    | .ok (some u) => .ok (some u)

/-- AuthorizeHandler.getAuthorizationCodeLifetime: expiry instant now plus the
configured lifetime in seconds. -/
def AuthorizeHandler.getAuthorizationCodeLifetime (opts : AuthorizeOpts)
    (now : Int) : Int :=
  now + opts.authorizationCodeLifetime * 1000

/-- AuthorizeHandler.getClient: client_id required and VSCHAR; an optional
redirect_uri must be URI-valid and listed in client.redirectUris; the client
must be allowed the authorization_code grant and have redirect URIs.  The
`!client.grants` branch is unrepresentable (a JS array, even empty, is
truthy). -/
def AuthorizeHandler.getClient (m : OAuthModel) (req : Request) :
    Except Thrown Client :=
  let clientId := jsOr req.body.client_id req.query.client_id
  if ¬ strTruthy clientId then
    .error (.oauth (invalidRequest "Missing parameter: `client_id`"))
  else if ¬ vscharOpt clientId then
    .error (.oauth (invalidRequest "Invalid parameter: `client_id`"))
  else
    let redirectUri := jsOr req.body.redirect_uri req.query.redirect_uri
    if strTruthy redirectUri ∧ ¬ isUriOpt redirectUri then
      .error (.oauth (invalidRequest "Invalid request: `redirect_uri` is not a valid URI"))
    else
      match m.getClient ((jsGetStr clientId).getD "") none with
      | .error e => .error e
      | .ok none =>
        .error (.oauth (invalidClient "Invalid client: client credentials are invalid"))
      | .ok (some client) =>
        if ¬ client.grants.contains "authorization_code" then
          .error (.oauth (unauthorizedClient "Unauthorized client: `grant_type` is invalid"))
        else if client.redirectUris.length = 0 then
          .error (.oauth (invalidClient "Invalid client: missing client `redirectUri`"))
        else if strTruthy redirectUri ∧
            ¬ client.redirectUris.contains ((jsGetStr redirectUri).getD "") then
          .error (.oauth (invalidClient "Invalid client: `redirect_uri` does not match client value"))
        else .ok client

/-- AuthorizeHandler.getScope (NQSCHAR over body-or-query, raising
invalid_scope — unlike the grant-side AbstractGrantType.getScope). -/
def AuthorizeHandler.getScope (req : Request) : Except Thrown (Option String) :=
  let scope := jsOr req.body.scope req.query.scope
  if ¬ nqscharOpt scope then
    .error (.oauth (invalidScope "Invalid parameter: `scope`"))
  else .ok scope

/-- AuthorizeHandler.getState: state required unless allowEmptyState; VSCHAR
validation of the coerced value (undefined coerces to "undefined" and
passes). -/
def AuthorizeHandler.getState (opts : AuthorizeOpts) (req : Request) :
    Except Thrown (Option String) :=
  let state := jsOr req.body.state req.query.state
  if ¬ opts.allowEmptyState ∧ ¬ strTruthy state then
    .error (.oauth (invalidRequest "Missing parameter: `state`"))
  else if ¬ vscharOpt state then
    .error (.oauth (invalidRequest "Invalid parameter: `state`"))
  else .ok state

/-- AuthorizeHandler.getResponseType: response_type required; only code is a
registry key. -/
def AuthorizeHandler.getResponseType (req : Request) : Except Thrown Unit :=
  let responseType := jsOr req.body.response_type req.query.response_type
  if ¬ strTruthy responseType then
    .error (.oauth (invalidRequest "Missing parameter: `response_type`"))
  else if responseType ≠ some "code" then
    .error (.oauth (unsupportedResponseType
      "Unsupported response type: `response_type` is not supported"))
  else .ok ()

/-- AuthorizeHandler.getRedirectUri: body, then query, then the client's first
registered redirect URI. -/
def AuthorizeHandler.getRedirectUri (req : Request) (client : Client) : String :=
  ((jsGetStr req.body.redirect_uri).orElse
    (fun _ => (jsGetStr req.query.redirect_uri))).getD
    (client.redirectUris.headD "")

/-- AuthorizeHandler.generateAuthorizationCode: model override (with random
fallback on a falsy result) or the random token. -/
def AuthorizeHandler.generateAuthorizationCode (m : OAuthModel) (rand : String)
    (client : Client) (user : Option User) (scope : Option String) :
    Except Thrown String :=
  match m.generateAuthorizationCode with
  | some f =>
    match f client user scope with
    | .error e => .error e
    | .ok t => .ok (match jsGetStr t with | some s => s | none => rand)
  | none => .ok rand

/-- AuthorizeHandler.saveAuthorizationCode. -/
def AuthorizeHandler.saveAuthorizationCode (m : OAuthModel)
    (authorizationCode : String) (expiresAt : Int) (scope : Option String)
    (client : Client) (redirectUri : String) (user : Option User) :
    Except Thrown AuthCodeSave :=
  m.saveAuthorizationCode
    { authorizationCode := authorizationCode
      expiresAt := expiresAt
      redirectUri := redirectUri
      scope := scope } client user

/-- AuthorizeHandler.buildErrorRedirectUri: error name, plus error_description
when the message is nonempty. -/
def AuthorizeHandler.buildErrorRedirectUri (redirectUri : String) (e : OAuthErr) :
    UrlQ :=
  { base := redirectUri
    query := [("error", e.name)] ++
      (if e.message ≠ "" then [("error_description", e.message)] else []) }

/-- AuthorizeHandler.updateResponse: append state when truthy, then redirect. -/
def AuthorizeHandler.updateResponse (resp : Response) (redirectUri : UrlQ)
    (state : Option String) : Response :=
  let q := if strTruthy state then
    redirectUri.query ++ [("state", (jsGetStr state).getD "")]
  else redirectUri.query
  resp.redirect (formatUrl { redirectUri with query := q })

/-- The try block of AuthorizeHandler.handle: scope, code generation, state,
response type, persistence, redirect construction — in source order.  The
returned Option String is the value of the state variable at exit (undefined
until getState ran), which the catch clause threads into the error redirect. -/
def AuthorizeHandler.handleTry (m : OAuthModel) (opts : AuthorizeOpts)
    (req : Request) (client : Client) (user : Option User) (uri : String)
    (expiresAt : Int) (rand : Nat → String) :
    Except Thrown (AuthCodeSave × UrlQ) × Option String :=
  match AuthorizeHandler.getScope req with
  | .error e => (.error e, none)
  | .ok scope =>
    match AuthorizeHandler.generateAuthorizationCode m (rand 0) client user scope with
    | .error e => (.error e, none)
    | .ok authorizationCode =>
      match AuthorizeHandler.getState opts req with
      | .error e => (.error e, none)
      | .ok state =>
        match AuthorizeHandler.getResponseType req with
        | .error e => (.error e, state)
        | .ok _ =>
          match AuthorizeHandler.saveAuthorizationCode m authorizationCode
              expiresAt scope client uri user with
          | .error e => (.error e, state)
          | .ok code =>
            match CodeResponseType.new code.authorizationCode with
            | .error e => (.error e, state)
            | .ok c =>
              match CodeResponseType.buildRedirectUri uri c with
              | .error e => (.error e, state)
              | .ok ruri => (.ok (code, ruri), state)

/-- AuthorizeHandler.handle.  The allowed == "false" short-circuit and the
client / user / expiry fan-out sit outside the try/catch: errors raised there
propagate with the response untouched.  Errors inside the try block are
wrapped when non-OAuth, written onto an error redirect, and rethrown. -/
def AuthorizeHandler.handle (m : OAuthModel) (opts : AuthorizeOpts)
    (h : AuthenticateVariant) (req : Request) (resp : Response) (now : Int)
    (rand : Nat → String) : Except Thrown AuthCodeSave × Response :=
  if req.query.allowed = some "false" then
    (.error (.oauth (accessDenied "Access denied: user denied access to application")),
     resp)
  else
    let expiresAt := AuthorizeHandler.getAuthorizationCodeLifetime opts now
    match AuthorizeHandler.getClient m req with
    | .error e => (.error e, resp)
    | .ok client =>
      match AuthorizeHandler.getUser h req resp with
      | .error e => (.error e, resp)
      | .ok user =>
        let uri := AuthorizeHandler.getRedirectUri req client
        match AuthorizeHandler.handleTry m opts req client user uri expiresAt rand with
        | (.ok (code, ruri), state) =>
          (.ok code, AuthorizeHandler.updateResponse resp ruri state)
        | (.error e, state) =>
          let e' := wrapThrown e
          (.error (.oauth e'),
           AuthorizeHandler.updateResponse resp
             (AuthorizeHandler.buildErrorRedirectUri uri e') state)

/-! ## Step characterisation lemmas for the grant traces -/

/-- Possible results of the code lookup step: an error with an empty trace, the
null-lookup invalid_grant with its event, or a trace recording a found code. -/
lemma acGet_cases (m : OAuthModel) (req : Request) (client : Client) (now : Int)
    (res : Except Thrown (AuthCode × User)) (tr : List Event)
    (heq : AuthorizationCodeGrantType.getAuthorizationCode m req client now = (res, tr)) :
    ((∃ e, res = .error e) ∧ tr = []) ∨
    (∃ c, res = .error (.oauth (invalidGrant "Invalid grant: authorization code is invalid")) ∧
      tr = [.getAuthorizationCodeEv c none]) ∨
    (∃ c code, tr = [.getAuthorizationCodeEv c (some code)]) := by
  unfold AuthorizationCodeGrantType.getAuthorizationCode at heq
  repeat' split at heq
  all_goals simp_all
  all_goals tauto

/-- Possible results of the revocation step. -/
lemma acRevoke_cases (m : OAuthModel) (code : AuthCode)
    (res : Except Thrown AuthCode) (tr : List Event)
    (heq : AuthorizationCodeGrantType.revokeAuthorizationCode m code = (res, tr)) :
    ((∃ e, res = .error e) ∧ tr = []) ∨
    (res = .ok code ∧ tr = [.revokeAuthorizationCodeEv true]) ∨
    (res = .error (.oauth (invalidGrant "Invalid grant: authorization code is invalid")) ∧
      tr = [.revokeAuthorizationCodeEv false]) := by
  unfold AuthorizationCodeGrantType.revokeAuthorizationCode at heq
  repeat' split at heq
  all_goals simp_all
  all_goals tauto

/-- Possible results of the token-save step of the authorization_code grant:
an error before the model call with an empty trace, or a single saveToken
event whose token literal carries the authorizationCode audit key. -/
lemma acSave_cases (m : OAuthModel) (opts : GrantOpts) (now : Int)
    (rand : Nat → String) (user : User) (client : Client)
    (authorizationCode : String) (scope : Option String)
    (res : Except Thrown TokenData) (tr : List Event)
    (heq : AuthorizationCodeGrantType.saveToken m opts now rand user client
      authorizationCode scope = (res, tr)) :
    ((∃ e, res = .error e) ∧ tr = []) ∨
    (∃ tok, tr = [.saveTokenEv tok] ∧
      tok.lookup "authorizationCode" = some (.vstr authorizationCode)) := by
  unfold AuthorizationCodeGrantType.saveToken saveTokenCall at heq
  repeat' split at heq
  all_goals simp_all [List.lookup]
  all_goals tauto

/-- Possible results of the refresh-token lookup step. -/
lemma rtGet_cases (m : OAuthModel) (req : Request) (client : Client) (now : Int)
    (res : Except Thrown (RefreshTokenRec × User)) (tr : List Event)
    (heq : RefreshTokenGrantType.getRefreshToken m req client now = (res, tr)) :
    ((∃ e, res = .error e) ∧ tr = []) ∨
    (∃ rt, res = .error (.oauth (invalidGrant "Invalid grant: refresh token is invalid")) ∧
      tr = [.getRefreshTokenEv rt none]) ∨
    (∃ rt token, tr = [.getRefreshTokenEv rt (some token)] ∧
      ((∃ e, res = .error e) ∨ (∃ u, res = .ok (token, u)))) := by
  unfold RefreshTokenGrantType.getRefreshToken at heq
  repeat' split at heq
  all_goals (injection heq with h1 h2; subst h1; subst h2)
  all_goals simp_all

/-- Possible results of the (conditional) refresh-token revocation step. -/
lemma rtRevoke_cases (m : OAuthModel) (opts : GrantOpts) (token : RefreshTokenRec)
    (res : Except Thrown RefreshTokenRec) (tr : List Event)
    (heq : RefreshTokenGrantType.revokeToken m opts token = (res, tr)) :
    (opts.alwaysIssueNewRefreshToken = some false ∧ res = .ok token ∧ tr = []) ∨
    (opts.alwaysIssueNewRefreshToken ≠ some false ∧
      (((∃ e, res = .error e) ∧ tr = []) ∨
       (res = .ok token ∧ tr = [.revokeTokenEv true]) ∨
       (res = .error (.oauth (invalidGrant "Invalid grant: refresh token is invalid")) ∧
        tr = [.revokeTokenEv false]))) := by
  unfold RefreshTokenGrantType.revokeToken at heq
  repeat' split at heq
  all_goals simp_all
  all_goals tauto

/-- Possible results of the refresh-grant token-save step: an error with an
empty trace, or one saveToken event carrying the token literal. -/
lemma rtSave_cases (m : OAuthModel) (opts : GrantOpts) (now : Int)
    (rand : Nat → String) (user : User) (client : Client) (scope : Option String)
    (res : Except Thrown TokenData) (tr : List Event)
    (heq : RefreshTokenGrantType.saveToken m opts now rand user client scope = (res, tr)) :
    ((∃ e, res = .error e) ∧ tr = []) ∨
    (∃ accessToken refreshToken, tr =
      [.saveTokenEv (RefreshTokenGrantType.tokenLiteral opts now accessToken refreshToken scope)]) := by
  unfold RefreshTokenGrantType.saveToken saveTokenCall at heq
  repeat' split at heq
  all_goals simp_all
  all_goals tauto

/-- The scope stored in the refresh-grant token literal is the one passed in
(the original refresh token's scope). -/
lemma rt_tokenLiteral_scope (opts : GrantOpts) (now : Int)
    (accessToken refreshToken : String) (scope : Option String) :
    (RefreshTokenGrantType.tokenLiteral opts now accessToken refreshToken scope).lookup
      "scope" = some (optVal scope) := by
  unfold RefreshTokenGrantType.tokenLiteral
  split <;> rfl

/-- Without rotation the token literal omits both refresh-token keys. -/
lemma rt_tokenLiteral_noRotation (opts : GrantOpts) (now : Int)
    (accessToken refreshToken : String) (scope : Option String)
    (h : opts.alwaysIssueNewRefreshToken = some false) :
    (RefreshTokenGrantType.tokenLiteral opts now accessToken refreshToken scope).lookup
      "refreshToken" = none ∧
    (RefreshTokenGrantType.tokenLiteral opts now accessToken refreshToken scope).lookup
      "refreshTokenExpiresAt" = none := by
  unfold RefreshTokenGrantType.tokenLiteral
  rw [if_neg (by simp [h])]
  exact ⟨rfl, rfl⟩

/-- With rotation the token literal carries the generated refresh token. -/
lemma rt_tokenLiteral_rotation (opts : GrantOpts) (now : Int)
    (accessToken refreshToken : String) (scope : Option String)
    (h : opts.alwaysIssueNewRefreshToken ≠ some false) :
    (RefreshTokenGrantType.tokenLiteral opts now accessToken refreshToken scope).lookup
      "refreshToken" = some (.vstr refreshToken) := by
  unfold RefreshTokenGrantType.tokenLiteral
  rw [if_pos h]
  rfl

/-- Master case analysis for the authorization_code grant execution: in every
run the revocation call precedes any saveToken call; a null code lookup or a
falsy revocation status yields the invalid_grant error with no saveToken call. -/
lemma acHandle_main (m : OAuthModel) (opts : GrantOpts) (req : Request)
    (client : Client) (now : Int) (rand : Nat → String)
    (res : Except Thrown TokenData) (tr : List Event)
    (heq : AuthorizationCodeGrantType.handle m opts req client now rand = (res, tr)) :
    savesAfterRevokeAC tr false = true ∧
    (∀ c, Event.getAuthorizationCodeEv c none ∈ tr →
      res = .error (.oauth (invalidGrant "Invalid grant: authorization code is invalid")) ∧
      noSaveToken tr = true) ∧
    (Event.revokeAuthorizationCodeEv false ∈ tr →
      res = .error (.oauth (invalidGrant "Invalid grant: authorization code is invalid")) ∧
      noSaveToken tr = true) := by
  unfold AuthorizationCodeGrantType.handle at heq
  rcases hg : AuthorizationCodeGrantType.getAuthorizationCode m req client now with ⟨res1, tr1⟩
  rw [hg] at heq
  rcases acGet_cases m req client now res1 tr1 hg with ⟨⟨e, he⟩, htr⟩ | ⟨c, he, htr⟩ | ⟨c, code0, htr⟩
  · subst he; subst htr
    simp only [] at heq
    injection heq with h1 h2; subst h1; subst h2
    simp [savesAfterRevokeAC, noSaveToken]
  · subst he; subst htr
    simp only [] at heq
    injection heq with h1 h2; subst h1; subst h2
    simp [savesAfterRevokeAC, noSaveToken]
  · subst htr
    rcases res1 with e | ⟨code, codeUser⟩
    · simp only [] at heq
      injection heq with h1 h2; subst h1; subst h2
      simp [savesAfterRevokeAC, noSaveToken]
    · simp only [] at heq
      rcases hv : AuthorizationCodeGrantType.validateRedirectUri req code with e | u
      · rw [hv] at heq
        simp only [] at heq
        injection heq with h1 h2; subst h1; subst h2
        simp [savesAfterRevokeAC, noSaveToken]
      · rw [hv] at heq
        simp only [] at heq
        rcases hr : AuthorizationCodeGrantType.revokeAuthorizationCode m code with ⟨res2, tr2⟩
        rw [hr] at heq
        rcases acRevoke_cases m code res2 tr2 hr with ⟨⟨e, he2⟩, htr2⟩ | ⟨he2, htr2⟩ | ⟨he2, htr2⟩
        · subst he2; subst htr2
          simp only [] at heq
          injection heq with h1 h2; subst h1; subst h2
          simp [savesAfterRevokeAC, noSaveToken]
        · subst he2; subst htr2
          simp only [] at heq
          rcases hs : AuthorizationCodeGrantType.saveToken m opts now rand codeUser client
              code.authorizationCode code.scope with ⟨res3, tr3⟩
          rw [hs] at heq
          rcases acSave_cases m opts now rand codeUser client code.authorizationCode
              code.scope res3 tr3 hs with ⟨⟨e, he3⟩, htr3⟩ | ⟨tok, htr3, _⟩
          · subst he3; subst htr3
            simp only [] at heq
            injection heq with h1 h2; subst h1; subst h2
            simp [savesAfterRevokeAC, noSaveToken]
          · subst htr3
            simp only [] at heq
            injection heq with h1 h2; subst h1; subst h2
            simp [savesAfterRevokeAC, noSaveToken]
        · subst he2; subst htr2
          simp only [] at heq
          injection heq with h1 h2; subst h1; subst h2
          simp [savesAfterRevokeAC, noSaveToken]

/-- Master case analysis of the refresh_token grant: without rotation
(alwaysIssueNewRefreshToken == false) revokeToken is never called and saved
tokens omit the refresh-token keys; with rotation revocation precedes saving, a
falsy revocation status yields invalid_grant with no save, and saved tokens
carry a refresh token; in all runs a saved token carries the scope of the
refresh token the lookup returned. -/
lemma rtHandle_main (m : OAuthModel) (opts : GrantOpts) (req : Request)
    (client : Client) (now : Int) (rand : Nat → String)
    (res : Except Thrown TokenData) (tr : List Event)
    (heq : RefreshTokenGrantType.handle m opts req client now rand = (res, tr)) :
    (opts.alwaysIssueNewRefreshToken = some false →
      noRevokeToken tr = true ∧
      ∀ tok, tok ∈ savedTokens tr →
        tok.lookup "refreshToken" = none ∧ tok.lookup "refreshTokenExpiresAt" = none) ∧
    (opts.alwaysIssueNewRefreshToken ≠ some false →
      savesAfterRevokeRT tr false = true ∧
      (Event.revokeTokenEv false ∈ tr →
        res = .error (.oauth (invalidGrant "Invalid grant: refresh token is invalid")) ∧
        noSaveToken tr = true) ∧
      ∀ tok, tok ∈ savedTokens tr → ∃ rt, tok.lookup "refreshToken" = some (.vstr rt)) ∧
    (∀ rt token tok, Event.getRefreshTokenEv rt (some token) ∈ tr →
      tok ∈ savedTokens tr → tok.lookup "scope" = some (optVal token.scope)) := by
  unfold RefreshTokenGrantType.handle at heq
  rcases hg : RefreshTokenGrantType.getRefreshToken m req client now with ⟨res1, tr1⟩
  rw [hg] at heq
  rcases rtGet_cases m req client now res1 tr1 hg with
    ⟨⟨e, he⟩, htr⟩ | ⟨rt0, he, htr⟩ | ⟨rt0, token0, htr, hres⟩
  · subst he; subst htr
    simp only [] at heq
    injection heq with h1 h2; subst h1; subst h2
    simp [noRevokeToken, savedTokens, savesAfterRevokeRT, noSaveToken]
  · subst he; subst htr
    simp only [] at heq
    injection heq with h1 h2; subst h1; subst h2
    simp [noRevokeToken, savedTokens, savesAfterRevokeRT, noSaveToken]
  · subst htr
    rcases hres with ⟨e, he⟩ | ⟨u0, he⟩
    · subst he
      simp only [] at heq
      injection heq with h1 h2; subst h1; subst h2
      simp [noRevokeToken, savedTokens, savesAfterRevokeRT, noSaveToken]
    · subst he
      simp only [] at heq
      rcases hr : RefreshTokenGrantType.revokeToken m opts token0 with ⟨res2, tr2⟩
      rw [hr] at heq
      rcases rtRevoke_cases m opts token0 res2 tr2 hr with
        ⟨hflag, he2, htr2⟩ | ⟨hflag, ⟨⟨e, he2⟩, htr2⟩ | ⟨he2, htr2⟩ | ⟨he2, htr2⟩⟩
      · subst he2; subst htr2
        simp only [] at heq
        rcases hs : RefreshTokenGrantType.saveToken m opts now rand u0 client token0.scope with
          ⟨res3, tr3⟩
        rw [hs] at heq
        rcases rtSave_cases m opts now rand u0 client token0.scope res3 tr3 hs with
          ⟨⟨e, he3⟩, htr3⟩ | ⟨aTok, rTok, htr3⟩
        · subst he3; subst htr3
          simp only [] at heq
          injection heq with h1 h2; subst h1; subst h2
          simp [noRevokeToken, savedTokens, savesAfterRevokeRT, noSaveToken, hflag]
        · subst htr3
          simp only [] at heq
          injection heq with h1 h2; subst h1; subst h2
          have hnr := rt_tokenLiteral_noRotation opts now aTok rTok token0.scope hflag
          have hsc := rt_tokenLiteral_scope opts now aTok rTok token0.scope
          refine ⟨fun _ => ⟨rfl, ?_⟩, fun hf => (hf hflag).elim, ?_⟩
          · intro tok htok
            simp [savedTokens] at htok
            subst htok
            exact hnr
          · intro rt token tok hmem hsv
            simp [savedTokens] at hsv
            simp at hmem
            rcases hmem with ⟨hrt, htok⟩
            subst hsv; subst htok
            exact hsc
      · subst he2; subst htr2
        simp only [] at heq
        injection heq with h1 h2; subst h1; subst h2
        simp [noRevokeToken, savedTokens, savesAfterRevokeRT, noSaveToken, hflag]
      · subst he2; subst htr2
        simp only [] at heq
        rcases hs : RefreshTokenGrantType.saveToken m opts now rand u0 client token0.scope with
          ⟨res3, tr3⟩
        rw [hs] at heq
        rcases rtSave_cases m opts now rand u0 client token0.scope res3 tr3 hs with
          ⟨⟨e, he3⟩, htr3⟩ | ⟨aTok, rTok, htr3⟩
        · subst he3; subst htr3
          simp only [] at heq
          injection heq with h1 h2; subst h1; subst h2
          simp [noRevokeToken, savedTokens, savesAfterRevokeRT, noSaveToken, hflag]
        · subst htr3
          simp only [] at heq
          injection heq with h1 h2; subst h1; subst h2
          have hro := rt_tokenLiteral_rotation opts now aTok rTok token0.scope hflag
          have hsc := rt_tokenLiteral_scope opts now aTok rTok token0.scope
          refine ⟨fun hf => (hflag hf).elim, fun _ => ⟨rfl, ?_, ?_⟩, ?_⟩
          · intro hmem
            simp at hmem
          · intro tok htok
            simp [savedTokens] at htok
            subst htok
            exact ⟨rTok, hro⟩
          · intro rt token tok hmem hsv
            simp [savedTokens] at hsv
            simp at hmem
            rcases hmem with ⟨hrt0, htok0⟩
            subst hsv; subst htok0
            exact hsc
      · subst he2; subst htr2
        simp only [] at heq
        injection heq with h1 h2; subst h1; subst h2
        simp [noRevokeToken, savedTokens, savesAfterRevokeRT, noSaveToken, hflag]

/-! ## Concrete fixtures for witnesses and counterexamples -/

/-- A demo user. -/
def demoUser : User := ⟨"u1"⟩

/-- A demo client allowed all built-in grants. -/
def demoClient : Client :=
  { id := "c1"
    grants := ["authorization_code", "client_credentials", "password", "refresh_token"]
    redirectUris := ["https://x.test/cb"]
    accessTokenLifetime := none
    refreshTokenLifetime := none }

/-- A demo authorization code bound to the demo client. -/
def demoAuthCode : AuthCode :=
  { authorizationCode := "abc"
    expiresAt := 2000
    redirectUri := none
    scope := some "read"
    client := some demoClient
    user := some demoUser }

/-- A demo refresh token bound to the demo client. -/
def demoRefreshTokenRec : RefreshTokenRec :=
  { refreshToken := "r1"
    refreshTokenExpiresAt := some 2000
    scope := some "read"
    client := some demoClient
    user := some demoUser }

/-- The random-token stream used by the demo runs. -/
def demoRand : Nat → String := fun n => if n = 0 then "tokA" else "tokR"

/-- A well-behaved demo model. -/
def demoModel : OAuthModel :=
  { getClient := fun _ _ => .ok (some demoClient)
    getAuthorizationCode := fun _ => .ok (some demoAuthCode)
    revokeAuthorizationCode := fun _ => .ok true
    saveToken := fun t _ _ => .ok t
    getUser := fun _ _ => .ok (some demoUser)
    getUserFromClient := fun _ => .ok (some demoUser)
    getRefreshToken := fun _ => .ok (some demoRefreshTokenRec)
    revokeToken := fun _ => .ok true
    saveAuthorizationCode := fun c _ _ => .ok c
    validateScope := none
    generateAccessToken := none
    generateRefreshToken := none
    generateAuthorizationCode := none }

/-- A model whose authorization-code lookup finds nothing (e.g. a second
exchange of an already-revoked code). -/
def demoModelNullCode : OAuthModel :=
  { demoModel with getAuthorizationCode := fun _ => .ok none }

/-- Demo grant options with rotation enabled. -/
def demoGrantOpts : GrantOpts :=
  { accessTokenLifetime := 3600
    refreshTokenLifetime := 1209600
    alwaysIssueNewRefreshToken := some true }

/-- Demo grant options with rotation disabled (explicit false). -/
def demoGrantOptsNoRotate : GrantOpts :=
  { demoGrantOpts with alwaysIssueNewRefreshToken := some false }

/-- A token request exchanging the demo authorization code. -/
def demoAcRequest : Request :=
  { method := "POST"
    contentType := some "application/x-www-form-urlencoded"
    body := { grant_type := some "authorization_code", code := some "abc" } }

/-- A token request presenting the demo refresh token. -/
def demoRtRequest : Request :=
  { method := "POST"
    contentType := some "application/x-www-form-urlencoded"
    body := { grant_type := some "refresh_token", refresh_token := some "r1" } }

/-! ## Claim C1 -/

/-- C1: in the authorization_code grant, every model.saveToken call is
preceded by a model.revokeAuthorizationCode call; if model.getAuthorizationCode
returns null (second exchange of a code) or model.revokeAuthorizationCode
returns a falsy status, the grant throws invalid_grant and model.saveToken is
never called. -/
theorem claim_C1_authorization_code_revocation (m : OAuthModel) (opts : GrantOpts)
    (req : Request) (client : Client) (now : Int) (rand : Nat → String) :
    savesAfterRevokeAC
      (AuthorizationCodeGrantType.handle m opts req client now rand).2 false = true ∧
    (∀ c, Event.getAuthorizationCodeEv c none ∈
        (AuthorizationCodeGrantType.handle m opts req client now rand).2 →
      (AuthorizationCodeGrantType.handle m opts req client now rand).1 =
        .error (.oauth (invalidGrant "Invalid grant: authorization code is invalid")) ∧
      noSaveToken (AuthorizationCodeGrantType.handle m opts req client now rand).2 = true) ∧
    (Event.revokeAuthorizationCodeEv false ∈
        (AuthorizationCodeGrantType.handle m opts req client now rand).2 →
      (AuthorizationCodeGrantType.handle m opts req client now rand).1 =
        .error (.oauth (invalidGrant "Invalid grant: authorization code is invalid")) ∧
      noSaveToken (AuthorizationCodeGrantType.handle m opts req client now rand).2 = true) :=
  acHandle_main m opts req client now rand _ _ rfl

/-- C1 witness: a second exchange of code "abc" against a model whose lookup
returns null yields invalid_grant and no saveToken call. -/
theorem claim_C1_witness :
    (AuthorizationCodeGrantType.handle demoModelNullCode demoGrantOpts
        demoAcRequest demoClient 1000 demoRand).1 =
      .error (.oauth (invalidGrant "Invalid grant: authorization code is invalid")) ∧
    noSaveToken (AuthorizationCodeGrantType.handle demoModelNullCode demoGrantOpts
        demoAcRequest demoClient 1000 demoRand).2 = true :=
  (claim_C1_authorization_code_revocation demoModelNullCode demoGrantOpts
    demoAcRequest demoClient 1000 demoRand).2.1 "abc" (by decide)

/-! ## Claim C2 -/

/-- C2: in the refresh_token grant, when alwaysIssueNewRefreshToken == false
model.revokeToken is never called and every token passed to model.saveToken
omits refreshToken and refreshTokenExpiresAt; otherwise revocation precedes
saving, a falsy revocation status throws invalid_grant with no save, and the
saved token carries a new refreshToken; in both cases a saved token carries
the original refresh token's scope. -/
theorem claim_C2_refresh_token_rotation (m : OAuthModel) (opts : GrantOpts)
    (req : Request) (client : Client) (now : Int) (rand : Nat → String) :
    (opts.alwaysIssueNewRefreshToken = some false →
      noRevokeToken (RefreshTokenGrantType.handle m opts req client now rand).2 = true ∧
      ∀ tok, tok ∈ savedTokens (RefreshTokenGrantType.handle m opts req client now rand).2 →
        tok.lookup "refreshToken" = none ∧ tok.lookup "refreshTokenExpiresAt" = none) ∧
    (opts.alwaysIssueNewRefreshToken ≠ some false →
      savesAfterRevokeRT (RefreshTokenGrantType.handle m opts req client now rand).2 false = true ∧
      (Event.revokeTokenEv false ∈ (RefreshTokenGrantType.handle m opts req client now rand).2 →
        (RefreshTokenGrantType.handle m opts req client now rand).1 =
          .error (.oauth (invalidGrant "Invalid grant: refresh token is invalid")) ∧
        noSaveToken (RefreshTokenGrantType.handle m opts req client now rand).2 = true) ∧
      ∀ tok, tok ∈ savedTokens (RefreshTokenGrantType.handle m opts req client now rand).2 →
        ∃ rt, tok.lookup "refreshToken" = some (.vstr rt)) ∧
    (∀ rt token tok,
      Event.getRefreshTokenEv rt (some token) ∈
        (RefreshTokenGrantType.handle m opts req client now rand).2 →
      tok ∈ savedTokens (RefreshTokenGrantType.handle m opts req client now rand).2 →
      tok.lookup "scope" = some (optVal token.scope)) :=
  rtHandle_main m opts req client now rand _ _ rfl

/-- C2 witness: with rotation disabled the demo run calls no revokeToken and
its saved token literal omits the refresh-token keys while keeping the
original scope. -/
theorem claim_C2_witness :
    noRevokeToken (RefreshTokenGrantType.handle demoModel demoGrantOptsNoRotate
      demoRtRequest demoClient 1000 demoRand).2 = true ∧
    (RefreshTokenGrantType.tokenLiteral demoGrantOptsNoRotate 1000 "tokA" "tokR"
        (some "read")).lookup "refreshToken" = none ∧
    (RefreshTokenGrantType.tokenLiteral demoGrantOptsNoRotate 1000 "tokA" "tokR"
        (some "read")).lookup "refreshTokenExpiresAt" = none ∧
    (RefreshTokenGrantType.tokenLiteral demoGrantOptsNoRotate 1000 "tokA" "tokR"
        (some "read")).lookup "scope" = some (optVal (some "read")) := by
  have h := (claim_C2_refresh_token_rotation demoModel demoGrantOptsNoRotate
    demoRtRequest demoClient 1000 demoRand).1 rfl
  have h2 := h.2 (RefreshTokenGrantType.tokenLiteral demoGrantOptsNoRotate 1000
    "tokA" "tokR" (some "read")) (by decide)
  have h3 := (claim_C2_refresh_token_rotation demoModel demoGrantOptsNoRotate
    demoRtRequest demoClient 1000 demoRand).2.2 "r1" demoRefreshTokenRec
    (RefreshTokenGrantType.tokenLiteral demoGrantOptsNoRotate 1000
      "tokA" "tokR" (some "read")) (by decide) (by decide)
  exact ⟨h.1, h2.1, h2.2, h3⟩

/-! ## Claim C6 -/

/-- Default TokenHandler options (Server defaults, no extensions). -/
def demoTokenHandlerOpts : TokenHandlerOpts :=
  { accessTokenLifetime := 3600
    refreshTokenLifetime := 1209600
    allowExtendedTokenAttributes := false
    requireClientAuthentication := []
    alwaysIssueNewRefreshToken := none
    extendedGrantTypes := [] }

/-- A token request with an unregistered grant_type. -/
def demoFooRequest : Request :=
  { method := "POST"
    contentType := some "application/x-www-form-urlencoded"
    body := { grant_type := some "foo" } }

/-- A client allowed only the password grant. -/
def demoClientPasswordOnly : Client := { demoClient with grants := ["password"] }

/-- C6: grant dispatch checks, in order: a missing grant_type yields
invalid_request; a grant_type failing NCHAR-or-URI syntax yields
invalid_request; a syntactically valid grant_type that is no registry key
yields unsupported_grant_type; a registered grant_type not in client.grants
yields unauthorized_client; only when all four checks pass is the grant
dispatched. -/
theorem claim_C6_grant_dispatch (m : OAuthModel) (opts : TokenHandlerOpts)
    (req : Request) (client : Client) (now : Int) (rand : Nat → String) :
    (jsGetStr req.body.grant_type = none →
      TokenHandler.handleGrantType m opts req client now rand =
        (.error (.oauth (invalidRequest "Missing parameter: `grant_type`")), [])) ∧
    (∀ g, jsGetStr req.body.grant_type = some g →
      ((nchar g || isUriStr g) = false →
        TokenHandler.handleGrantType m opts req client now rand =
          (.error (.oauth (invalidRequest "Invalid parameter: `grant_type`")), [])) ∧
      ((nchar g || isUriStr g) = true → TokenHandler.grantTypesHas opts g = false →
        TokenHandler.handleGrantType m opts req client now rand =
          (.error (.oauth (unsupportedGrantType
            "Unsupported grant type: `grant_type` is invalid")), [])) ∧
      ((nchar g || isUriStr g) = true → TokenHandler.grantTypesHas opts g = true →
        client.grants.contains g = false →
        TokenHandler.handleGrantType m opts req client now rand =
          (.error (.oauth (unauthorizedClient
            "Unauthorized client: `grant_type` is invalid")), [])) ∧
      ((nchar g || isUriStr g) = true → TokenHandler.grantTypesHas opts g = true →
        client.grants.contains g = true →
        TokenHandler.handleGrantType m opts req client now rand =
          TokenHandler.dispatchGrant m opts g req client now rand)) := by
  refine ⟨?_, ?_⟩
  · intro h
    simp [TokenHandler.handleGrantType, h]
  · intro g hg
    refine ⟨?_, ?_, ?_, ?_⟩
    · intro hsyn
      simp [TokenHandler.handleGrantType, hg, hsyn]
    · intro hsyn hreg
      simp [TokenHandler.handleGrantType, hg, hsyn, hreg]
    · intro hsyn hreg hgr
      have hmem : g ∉ client.grants := by simpa using hgr
      simp [TokenHandler.handleGrantType, hg, hsyn, hreg, hmem]
    · intro hsyn hreg hgr
      have hmem : g ∈ client.grants := by simpa using hgr
      simp [TokenHandler.handleGrantType, hg, hsyn, hreg, hmem]

/-- C6 witness: grant_type "foo" is NCHAR-valid but unregistered
(unsupported_grant_type); "refresh_token" is registered but absent from a
password-only client's grants (unauthorized_client). -/
theorem claim_C6_witness :
    TokenHandler.handleGrantType demoModel demoTokenHandlerOpts demoFooRequest
      demoClient 1000 demoRand =
      (.error (.oauth (unsupportedGrantType
        "Unsupported grant type: `grant_type` is invalid")), []) ∧
    TokenHandler.handleGrantType demoModel demoTokenHandlerOpts demoRtRequest
      demoClientPasswordOnly 1000 demoRand =
      (.error (.oauth (unauthorizedClient
        "Unauthorized client: `grant_type` is invalid")), []) :=
  ⟨((claim_C6_grant_dispatch demoModel demoTokenHandlerOpts demoFooRequest
      demoClient 1000 demoRand).2 "foo" (by decide)).2.1 (by decide) (by decide),
   ((claim_C6_grant_dispatch demoModel demoTokenHandlerOpts demoRtRequest
      demoClientPasswordOnly 1000 demoRand).2 "refresh_token" (by decide)).2.2.1
      (by decide) (by decide) (by decide)⟩

/-! ## Claim C8 -/

/-- C8: with the empty (default) requireClientAuthentication map every grant
requires client authentication; with a non-empty map a grant type without an
entry still defaults to true, and an explicit entry decides. -/
theorem claim_C8_require_client_authentication
    (rca : List (String × Bool)) (gt : Option String) :
    TokenHandler.isClientAuthenticationRequired [] gt = true ∧
    (rca ≠ [] → ∀ g, gt = some g → rca.lookup g = none →
      TokenHandler.isClientAuthenticationRequired rca gt = true) ∧
    (∀ g b, gt = some g → rca.lookup g = some b →
      TokenHandler.isClientAuthenticationRequired rca gt = b) := by
  refine ⟨?_, ?_, ?_⟩
  · simp [TokenHandler.isClientAuthenticationRequired]
  · intro hne g hgt hnone
    subst hgt
    have hlen : 0 < rca.length := List.length_pos.mpr hne
    simp [TokenHandler.isClientAuthenticationRequired, hlen, hnone]
  · intro g b hgt hsome
    subst hgt
    have hne : rca ≠ [] := by
      intro h
      subst h
      simp at hsome
    have hlen : 0 < rca.length := List.length_pos.mpr hne
    simp [TokenHandler.isClientAuthenticationRequired, hlen, hsome]

/-- C8 witness: the empty map requires authentication for password; the map
with only a password entry still requires it for authorization_code, and the
explicit false entry disables it for password. -/
theorem claim_C8_witness :
    TokenHandler.isClientAuthenticationRequired [] (some "password") = true ∧
    TokenHandler.isClientAuthenticationRequired [("password", false)]
      (some "authorization_code") = true ∧
    TokenHandler.isClientAuthenticationRequired [("password", false)]
      (some "password") = false :=
  ⟨(claim_C8_require_client_authentication [] (some "password")).1,
   (claim_C8_require_client_authentication [("password", false)]
      (some "authorization_code")).2.1 (by decide) "authorization_code" rfl (by decide),
   (claim_C8_require_client_authentication [("password", false)]
      (some "password")).2.2 "password" false rfl (by decide)⟩

/-! ## Claim C9 -/

/-- C9: in the password and client_credentials grants a request-body scope
failing NQSCHAR validation makes AbstractGrantType.getScope throw
invalid_argument with HTTP status 500 (the programmer-error kind), not
invalid_scope with status 400. -/
theorem claim_C9_grant_scope_invalid_argument (m : OAuthModel) (opts : GrantOpts)
    (req : Request) (client : Client) (now : Int) (rand : Nat → String)
    (s : String) (h1 : req.body.scope = some s) (h2 : nqschar s = false) :
    PasswordGrantType.handle m opts req client now rand =
      (.error (.oauth (invalidArgument "Invalid parameter: `scope`")), []) ∧
    ClientCredentialsGrantType.handle m opts req client now rand =
      (.error (.oauth (invalidArgument "Invalid parameter: `scope`")), []) ∧
    (invalidArgument "Invalid parameter: `scope`").code = 500 ∧
    (invalidArgument "Invalid parameter: `scope`").name = "invalid_argument" ∧
    (invalidArgument "Invalid parameter: `scope`").name ≠
      (invalidScope "Invalid parameter: `scope`").name ∧
    (invalidScope "Invalid parameter: `scope`").code = 400 := by
  refine ⟨?_, ?_, rfl, rfl, by decide, rfl⟩
  · simp [PasswordGrantType.handle, AbstractGrantType.getScope, nqscharOpt, h1, h2]
  · simp [ClientCredentialsGrantType.handle, AbstractGrantType.getScope, nqscharOpt, h1, h2]

/-- A token request whose body scope contains a double quote (not NQSCHAR). -/
def demoBadScopeRequest : Request :=
  { method := "POST"
    contentType := some "application/x-www-form-urlencoded"
    body := { grant_type := some "password", scope := some "a\"b" } }

/-- C9 witness: the scope value with a double quote fails NQSCHAR and both
grants throw invalid_argument (code 500). -/
theorem claim_C9_witness :
    PasswordGrantType.handle demoModel demoGrantOpts demoBadScopeRequest
      demoClient 1000 demoRand =
      (.error (.oauth (invalidArgument "Invalid parameter: `scope`")), []) ∧
    (invalidArgument "Invalid parameter: `scope`").code = 500 :=
  ⟨(claim_C9_grant_scope_invalid_argument demoModel demoGrantOpts
      demoBadScopeRequest demoClient 1000 demoRand "a\"b" rfl (by decide)).1,
   (claim_C9_grant_scope_invalid_argument demoModel demoGrantOpts
      demoBadScopeRequest demoClient 1000 demoRand "a\"b" rfl (by decide)).2.2.1⟩

/-! ## Claim C7 -/

/-- C7: when the token data carries a (Date) accessTokenExpiresAt, the derived
accessTokenLifetime is the floor of the millisecond difference to now divided
by 1000 — characterised both as Int.fdiv and by the floor bounds — and it is
serialised as the expires_in member of the Bearer body; when
accessTokenExpiresAt is absent no lifetime is computed. -/
theorem claim_C7_expires_in_floor (data : TokenData) (allow : Bool) (now : Int)
    (tm : TokenModelS) (h : tokenModelNew data allow now = .ok tm) :
    (∀ t, tmGet data "accessTokenExpiresAt" = some (.vdate t) →
      tm.accessTokenLifetime = some ((t - now).fdiv 1000) ∧
      ∀ q, tm.accessTokenLifetime = some q →
        1000 * q ≤ t - now ∧ t - now < 1000 * q + 1000) ∧
    (tmGet data "accessTokenExpiresAt" = none → tm.accessTokenLifetime = none) ∧
    (∀ n, tm.accessTokenLifetime = some n →
      (BearerTokenType.valueOf tm.accessToken tm.accessTokenLifetime tm.refreshToken
        tm.scope tm.customAttributes).lookup "expires_in" = some (.vint n)) := by
  have hbound : ∀ t : Int, 1000 * ((t - now).fdiv 1000) ≤ t - now ∧
      t - now < 1000 * ((t - now).fdiv 1000) + 1000 := by
    intro t
    have h1 := Int.fmod_add_fdiv (t - now) 1000
    have h2 : 0 ≤ (t - now).fmod 1000 := Int.fmod_nonneg' (t - now) (by norm_num)
    have h3 : (t - now).fmod 1000 < 1000 := Int.fmod_lt_of_pos (t - now) (by norm_num)
    omega
  unfold tokenModelNew at h
  repeat' split at h
  any_goals exact Except.noConfusion h
  all_goals (injection h with h; subst h)
  all_goals first
    | (rename_i x t0 heq
       refine ⟨?_, ?_, ?_⟩
       · intro t ht
         rw [heq] at ht
         simp only [Option.some.injEq, Val.vdate.injEq] at ht
         subst ht
         refine ⟨rfl, ?_⟩
         intro q hq
         simp only [Option.some.injEq] at hq
         subst hq
         exact hbound t0
       · intro ht
         rw [heq] at ht
         exact Option.noConfusion ht
       · intro n hn
         simp only [Option.some.injEq] at hn
         subst hn
         simp [BearerTokenType.valueOf, List.lookup])
    | (rename_i x hnv
       exact ⟨fun t ht => (hnv t ht).elim, fun _ => rfl,
         fun n hn => Option.noConfusion hn⟩)

/-- Demo token data as returned by a model.saveToken (expiry 3.6 s ahead). -/
def demoTokenData : TokenData :=
  [("accessToken", .vstr "tokA"),
   ("accessTokenExpiresAt", .vdate 4600),
   ("client", .vclient "c1"),
   ("user", .vuser "u1"),
   ("scope", .vstr "read")]

/-- The TokenModel constructed from demoTokenData at now = 1000. -/
def demoTM : TokenModelS :=
  { accessToken := some (.vstr "tokA")
    accessTokenExpiresAt := some (.vdate 4600)
    refreshToken := none
    refreshTokenExpiresAt := none
    scope := some (.vstr "read")
    client := some (.vclient "c1")
    user := some (.vuser "u1")
    customAttributes := some []
    accessTokenLifetime := some 3 }

/-- C7 witness: the demo construction derives expires_in 3 from a 3600 ms
difference, floored. -/
theorem claim_C7_witness :
    demoTM.accessTokenLifetime = some ((4600 - 1000 : Int).fdiv 1000) ∧
    (1000 * 3 ≤ (4600 - 1000 : Int) ∧ (4600 - 1000 : Int) < 1000 * 3 + 1000) ∧
    (BearerTokenType.valueOf demoTM.accessToken demoTM.accessTokenLifetime
      demoTM.refreshToken demoTM.scope demoTM.customAttributes).lookup "expires_in" =
      some (.vint 3) :=
  ⟨((claim_C7_expires_in_floor demoTokenData true 1000 demoTM rfl).1
      4600 (by decide)).1,
   ((claim_C7_expires_in_floor demoTokenData true 1000 demoTM rfl).1
      4600 (by decide)).2 3 (by decide),
   (claim_C7_expires_in_floor demoTokenData true 1000 demoTM rfl).2.2
      3 (by decide)⟩

/-! ## Claim C3 -/

/-- AuthorizeHandler options with the Server defaults. -/
def demoAzOpts : AuthorizeOpts :=
  { allowEmptyState := false, authorizationCodeLifetime := 300 }

/-- A custom authenticate handler resolving the demo user. -/
def demoAuthVariant : AuthenticateVariant :=
  .custom (fun _ _ => .ok (some demoUser))

/-- An authorize request in which the user denied access. -/
def demoDeniedRequest : Request :=
  { method := "GET"
    query := { allowed := some "false", client_id := some "c1",
               response_type := some "code", state := some "xyz",
               redirect_uri := some "https://x.test/cb" } }

/-- C3 counterexample: on the denied request the handler throws access_denied
but the response is left untouched — no 302 status and no Location header —
because the short-circuit sits before the redirect-building try/catch. -/
theorem claim_C3_counterexample :
    (AuthorizeHandler.handle demoModel demoAzOpts demoAuthVariant
        demoDeniedRequest {} 1000 demoRand).1 =
      .error (.oauth (accessDenied "Access denied: user denied access to application")) ∧
    (AuthorizeHandler.handle demoModel demoAzOpts demoAuthVariant
        demoDeniedRequest {} 1000 demoRand).2 = ({} : Response) ∧
    ({} : Response).status ≠ some 302 ∧
    ({} : Response).headers.lookup "Location" = none :=
  ⟨rfl, rfl, by decide, rfl⟩

/-- C3 (amended): a request whose query carries allowed == "false" makes
AuthorizeHandler.handle throw access_denied (name access_denied, code 400)
before the redirect URI is resolved, leaving the response exactly as it was
(no redirect, no error body). -/
theorem claim_C3_access_denied_no_redirect (m : OAuthModel) (opts : AuthorizeOpts)
    (h : AuthenticateVariant) (req : Request) (resp : Response) (now : Int)
    (rand : Nat → String) (hq : req.query.allowed = some "false") :
    AuthorizeHandler.handle m opts h req resp now rand =
      (.error (.oauth (accessDenied "Access denied: user denied access to application")),
       resp) ∧
    (accessDenied "Access denied: user denied access to application").code = 400 := by
  constructor
  · unfold AuthorizeHandler.handle
    rw [if_pos hq]
  · rfl

/-- C3 witness: the amended statement at the demo denied request. -/
theorem claim_C3_witness :
    AuthorizeHandler.handle demoModel demoAzOpts demoAuthVariant
        demoDeniedRequest { status := some 200 } 1000 demoRand =
      (.error (.oauth (accessDenied "Access denied: user denied access to application")),
       { status := some 200 }) ∧
    (accessDenied "Access denied: user denied access to application").code = 400 :=
  claim_C3_access_denied_no_redirect demoModel demoAzOpts demoAuthVariant
    demoDeniedRequest { status := some 200 } 1000 demoRand rfl

/-! ## Claim C4 -/

/-- A GET token request (violating the POST precondition). -/
def demoGetRequest : Request := { method := "GET" }

/-- C4 counterexample: a GET request fails with invalid_request, but the
response is left untouched — its status is not set to the error's code and no
error body is written — because the method/content-type preconditions sit
outside the try/catch that feeds updateErrorResponse. -/
theorem claim_C4_counterexample :
    (TokenHandler.handle demoModel demoTokenHandlerOpts demoGetRequest {} 1000
        demoRand).1 =
      .error (invalidRequest "Invalid request: method must be POST") ∧
    (TokenHandler.handle demoModel demoTokenHandlerOpts demoGetRequest {} 1000
        demoRand).2.1 = ({} : Response) ∧
    ({} : Response).status = none ∧
    (invalidRequest "Invalid request: method must be POST").code = 400 :=
  ⟨rfl, rfl, rfl, rfl⟩

/-- C4 (amended): violations of the POST-method and form-urlencoded
preconditions throw invalid_request with the response unmodified; for every
error thrown inside the pipeline (client resolution onwards), a non-OAuth
throwable is wrapped as server_error and updateErrorResponse writes the
error/error_description body and the error's code as status. -/
theorem claim_C4_error_surface (m : OAuthModel) (opts : TokenHandlerOpts)
    (req : Request) (resp : Response) (now : Int) (rand : Nat → String) :
    (req.method ≠ "POST" →
      TokenHandler.handle m opts req resp now rand =
        (.error (invalidRequest "Invalid request: method must be POST"), resp, [])) ∧
    (req.method = "POST" → requestIsForm req = false →
      TokenHandler.handle m opts req resp now rand =
        (.error (invalidRequest
          "Invalid request: content must be application/x-www-form-urlencoded"),
         resp, [])) ∧
    (∀ e resp' tr, req.method = "POST" → requestIsForm req = true →
      TokenHandler.handleTry m opts req resp now rand = (.error e, resp', tr) →
      TokenHandler.handle m opts req resp now rand =
        (.error (wrapThrown e),
         TokenHandler.updateErrorResponse resp' (wrapThrown e), tr)) ∧
    (∀ msg, wrapThrown (.other msg) = serverError msg ∧
      (serverError msg).name = "server_error") ∧
    (∀ r e, (TokenHandler.updateErrorResponse r e).body =
        some [("error", .vstr e.name), ("error_description", .vstr e.message)] ∧
      (TokenHandler.updateErrorResponse r e).status = some e.code) := by
  refine ⟨?_, ?_, ?_, ?_, ?_⟩
  · intro hm
    simp [TokenHandler.handle, hm]
  · intro hm hf
    simp [TokenHandler.handle, hm, hf]
  · intro e resp' tr hm hf htry
    simp [TokenHandler.handle, hm, hf, htry]
  · intro msg
    exact ⟨rfl, rfl⟩
  · intro r e
    exact ⟨rfl, rfl⟩

/-- A model whose getClient throws a non-OAuth value. -/
def demoModelThrow : OAuthModel :=
  { demoModel with getClient := fun _ _ => .error (.other "boom") }

/-- A POST form token request with Basic credentials. -/
def demoBasicRequest : Request :=
  { method := "POST"
    contentType := some "application/x-www-form-urlencoded"
    authorization := .basic "c1" "s1"
    body := { grant_type := some "password", username := some "u",
              password := some "p" } }

/-- C4 witness: a GET request leaves the response untouched, and a non-OAuth
throwable from the model surfaces as a server_error response with body and
status written. -/
theorem claim_C4_witness :
    TokenHandler.handle demoModel demoTokenHandlerOpts demoGetRequest
        { status := some 200 } 1000 demoRand =
      (.error (invalidRequest "Invalid request: method must be POST"),
       { status := some 200 }, []) ∧
    TokenHandler.handle demoModelThrow demoTokenHandlerOpts demoBasicRequest
        {} 1000 demoRand =
      (.error (serverError "boom"),
       TokenHandler.updateErrorResponse {} (serverError "boom"), []) ∧
    (TokenHandler.updateErrorResponse {} (serverError "boom")).status = some 503 ∧
    (TokenHandler.updateErrorResponse {} (serverError "boom")).body =
      some [("error", .vstr "server_error"), ("error_description", .vstr "boom")] :=
  ⟨(claim_C4_error_surface demoModel demoTokenHandlerOpts demoGetRequest
      { status := some 200 } 1000 demoRand).1 (by decide),
   (claim_C4_error_surface demoModelThrow demoTokenHandlerOpts demoBasicRequest
      {} 1000 demoRand).2.2.1 (.other "boom") {} [] rfl rfl rfl,
   rfl, rfl⟩

/-! ## Claim C5 -/

/-- A model whose client lookup returns null. -/
def demoModelNullClient : OAuthModel :=
  { demoModel with getClient := fun _ _ => .ok none }

/-- A POST form request carrying body credentials AND a non-Basic
Authorization header (e.g. a stray Bearer header). -/
def demoBodyCredsBearerRequest : Request :=
  { method := "POST"
    contentType := some "application/x-www-form-urlencoded"
    authorization := .otherHeader "Bearer xyz"
    body := { grant_type := some "password", client_id := some "c1",
              client_secret := some "s1" } }

/-- C5 counterexample: the credentials of this request are resolved from the
form body (the header is not Basic), yet because an Authorization header is
present the failed lookup is answered with status 401 and a WWW-Authenticate
header — refuting the claim that body-sourced credentials always keep the
default 400 and no header. -/
theorem claim_C5_counterexample :
    TokenHandler.getClientCredentials demoTokenHandlerOpts
      demoBodyCredsBearerRequest = .ok ⟨"c1", some "s1"⟩ ∧
    (TokenHandler.getClient demoModelNullClient demoTokenHandlerOpts
        demoBodyCredsBearerRequest {}).1 =
      .error (.oauth ⟨"invalid_client", 401, "Invalid client: client is invalid"⟩) ∧
    (TokenHandler.getClient demoModelNullClient demoTokenHandlerOpts
        demoBodyCredsBearerRequest {}).2.headers.lookup "WWW-Authenticate" =
      some "Basic realm=\"Service\"" :=
  ⟨rfl, rfl, rfl⟩

/-- C5 (amended): when the syntactic credential checks pass and model.getClient
returns null, the handler fails with invalid_client; if the request carries a
(truthy) Authorization header — regardless of where the credentials were parsed
from — the status becomes 401 and WWW-Authenticate: Basic realm="Service" is
set; without such a header the error keeps its default 400 and the response is
unchanged. -/
theorem claim_C5_invalid_client_www_authenticate (m : OAuthModel)
    (opts : TokenHandlerOpts) (req : Request) (resp : Response)
    (creds : Credentials)
    (hcred : TokenHandler.getClientCredentials opts req = .ok creds)
    (hid : creds.clientId ≠ "")
    (hsec : strTruthy creds.clientSecret = true)
    (hv1 : vschar creds.clientId = true)
    (hv2 : vscharOpt creds.clientSecret = true)
    (hnull : m.getClient creds.clientId creds.clientSecret = .ok none) :
    (authHeaderTruthy req.authorization = true →
      TokenHandler.getClient m opts req resp =
        (.error (.oauth ⟨"invalid_client", 401, "Invalid client: client is invalid"⟩),
         resp.setHeader "WWW-Authenticate" "Basic realm=\"Service\"")) ∧
    (authHeaderTruthy req.authorization = false →
      TokenHandler.getClient m opts req resp =
        (.error (.oauth (invalidClient "Invalid client: client is invalid")), resp) ∧
      (invalidClient "Invalid client: client is invalid").code = 400) := by
  constructor
  · intro hauth
    simp [TokenHandler.getClient, hcred, hid, hsec, hv1, hv2, hnull, hauth,
      invalidClient]
  · intro hauth
    refine ⟨?_, rfl⟩
    simp [TokenHandler.getClient, hcred, hid, hsec, hv1, hv2, hnull, hauth,
      invalidClient]

/-- A POST form request authenticating with HTTP Basic only. -/
def demoBasicOnlyRequest : Request :=
  { method := "POST"
    contentType := some "application/x-www-form-urlencoded"
    authorization := .basic "c1" "s1"
    body := { grant_type := some "password" } }

/-- A POST form request with body credentials and no Authorization header. -/
def demoBodyCredsRequest : Request :=
  { method := "POST"
    contentType := some "application/x-www-form-urlencoded"
    body := { grant_type := some "password", client_id := some "c1",
              client_secret := some "s1" } }

/-- C5 witness: Basic-header credentials against a null lookup give 401 with
the WWW-Authenticate header; pure body credentials keep 400 and an unchanged
response. -/
theorem claim_C5_witness :
    TokenHandler.getClient demoModelNullClient demoTokenHandlerOpts
        demoBasicOnlyRequest {} =
      (.error (.oauth ⟨"invalid_client", 401, "Invalid client: client is invalid"⟩),
       Response.setHeader {} "WWW-Authenticate" "Basic realm=\"Service\"") ∧
    TokenHandler.getClient demoModelNullClient demoTokenHandlerOpts
        demoBodyCredsRequest {} =
      (.error (.oauth (invalidClient "Invalid client: client is invalid")),
       ({} : Response)) :=
  ⟨(claim_C5_invalid_client_www_authenticate demoModelNullClient
      demoTokenHandlerOpts demoBasicOnlyRequest {} ⟨"c1", some "s1"⟩
      rfl (by decide) (by decide) (by decide) (by decide) rfl).1 (by decide),
   ((claim_C5_invalid_client_www_authenticate demoModelNullClient
      demoTokenHandlerOpts demoBodyCredsRequest {} ⟨"c1", some "s1"⟩
      rfl (by decide) (by decide) (by decide) (by decide) rfl).2 (by decide)).1⟩

/-! ## Claim C10 -/

/-- Filtering by a predicate that holds for every pair keyed k preserves a
successful lookup of k. -/
lemma lookup_filter_pred (p : String × Val → Bool) (data : TokenData)
    (k : String) (v : Val) (hv : data.lookup k = some v)
    (hall : ∀ w, p (k, w) = true) :
    (data.filter p).lookup k = some v := by
  induction data with
  | nil => simp at hv
  | cons hd tl ih =>
    rcases hd with ⟨a, b⟩
    by_cases hak : a = k
    · subst hak
      simp [List.lookup] at hv
      subst hv
      simp [List.filter, hall, List.lookup]
    · have hne : (k == a) = false := beq_eq_false_iff_ne.mpr (fun h => hak h.symm)
      have hlk : List.lookup k tl = some v := by
        simpa [List.lookup, hne] using hv
      cases hp : p (a, b)
      · simpa [List.filter, hp] using ih hlk
      · simpa [List.filter, hp, List.lookup, hne] using ih hlk

/-- C10: authorizationCode is not a reserved TokenModel attribute; the
authorization_code grant's saveToken stores it on every token passed to
model.saveToken; with allowExtendedTokenAttributes the TokenModel copies it
into customAttributes; and the Bearer body exposes custom attributes under
their own keys. -/
theorem claim_C10_authorization_code_extended_attribute :
    modelAttributes.contains "authorizationCode" = false ∧
    (∀ (m : OAuthModel) (opts : GrantOpts) (now : Int) (rand : Nat → String)
      (user : User) (client : Client) (ac : String) (scope : Option String)
      (res : Except Thrown TokenData) (tr : List Event),
      AuthorizationCodeGrantType.saveToken m opts now rand user client ac scope =
        (res, tr) →
      ∀ tok, tok ∈ savedTokens tr → tok.lookup "authorizationCode" = some (.vstr ac)) ∧
    (∀ (data : TokenData) (now : Int) (tm : TokenModelS) (v : Val),
      tokenModelNew data true now = .ok tm →
      data.lookup "authorizationCode" = some v →
      ∃ ca, tm.customAttributes = some ca ∧ ca.lookup "authorizationCode" = some v) ∧
    (∀ (a : Option Val) (l : Option Int) (r s : Option Val) (ca : TokenData),
      (BearerTokenType.valueOf a l r s (some ca)).lookup "authorizationCode" =
        ca.lookup "authorizationCode") := by
  refine ⟨by decide, ?_, ?_, ?_⟩
  · intro m opts now rand user client ac scope res tr heq tok htok
    rcases acSave_cases m opts now rand user client ac scope res tr heq with
      ⟨_, htr⟩ | ⟨tok0, htr, hlk⟩
    · subst htr
      simp [savedTokens] at htok
    · subst htr
      simp [savedTokens] at htok
      subst htok
      exact hlk
  · intro data now tm v h hv
    unfold tokenModelNew at h
    repeat' split at h
    any_goals exact Except.noConfusion h
    all_goals (injection h with h; subst h)
    all_goals first
      | (refine ⟨_, rfl, ?_⟩
         exact lookup_filter_pred _ data "authorizationCode" v hv (fun w => rfl))
      | simp_all
  · intro a l r s ca
    unfold BearerTokenType.valueOf
    repeat' split
    all_goals simp [List.lookup]

/-- The token literal the demo authorization_code exchange passes to
model.saveToken. -/
def demoAcLiteral : TokenData :=
  [("accessToken", .vstr "tokA"),
   ("authorizationCode", .vstr "abc"),
   ("accessTokenExpiresAt", .vdate 3601000),
   ("refreshToken", .vstr "tokR"),
   ("refreshTokenExpiresAt", .vdate 1209601000),
   ("scope", .vstr "read")]

/-- Demo saved-token data carrying the authorizationCode audit key. -/
def demoTokenDataWithCode : TokenData :=
  demoTokenData ++ [("authorizationCode", .vstr "abc")]

/-- TokenModel of demoTokenDataWithCode with extended attributes allowed. -/
def demoTM2 : TokenModelS :=
  { demoTM with customAttributes := some [("authorizationCode", .vstr "abc")] }

/-- C10 witness: the demo exchange stores authorizationCode on the saved
token; TokenModel copies it into customAttributes; the Bearer body serialises
it. -/
theorem claim_C10_witness :
    modelAttributes.contains "authorizationCode" = false ∧
    demoAcLiteral.lookup "authorizationCode" = some (.vstr "abc") ∧
    (∃ ca, demoTM2.customAttributes = some ca ∧
      ca.lookup "authorizationCode" = some (.vstr "abc")) ∧
    (BearerTokenType.valueOf demoTM2.accessToken demoTM2.accessTokenLifetime
        demoTM2.refreshToken demoTM2.scope
        (some [("authorizationCode", .vstr "abc")])).lookup "authorizationCode" =
      some (.vstr "abc") :=
  ⟨claim_C10_authorization_code_extended_attribute.1,
   claim_C10_authorization_code_extended_attribute.2.1 demoModel demoGrantOpts
     1000 demoRand demoUser demoClient "abc" (some "read")
     (.ok demoAcLiteral) [.saveTokenEv demoAcLiteral] rfl demoAcLiteral (by decide),
   claim_C10_authorization_code_extended_attribute.2.2.1 demoTokenDataWithCode
     1000 demoTM2 (.vstr "abc") rfl (by decide),
   (claim_C10_authorization_code_extended_attribute.2.2.2 demoTM2.accessToken
     demoTM2.accessTokenLifetime demoTM2.refreshToken demoTM2.scope
     [("authorizationCode", .vstr "abc")]).trans (by decide)⟩
